import Mathlib

/-!
Verification of the INTERCEPT signal-intelligence server (Python sources
under `src/`) against its natural-language specification.

The Python code is shallowly embedded: every handler becomes a pure Lean
function from its request data, module-level state and an oracle for the
external world (filesystem, subprocess spawning, skyfield) to its Flask
response, successor state and list of performed effects.  Flask's
`jsonify(...)` without an explicit status code produces HTTP 200; a
handler that returns `jsonify(...), n` produces HTTP `n`.  Machine
integers do not overflow in any of the modelled code paths, so Python
ints are embedded as `Int`/`Nat` and Python floats (which here only ever
hold decimal user inputs and degree values) as `ℚ`.
-/

namespace Intercept

/-- A JSON value as produced by the handlers (only the shapes that actually
occur in the embedded responses: strings, booleans, integers and null). -/
inductive JVal where
  | s : String → JVal
  | b : Bool → JVal
  | i : Int → JVal
  | nullv : JVal
deriving DecidableEq, Repr

/-- A Flask JSON response: body (ordered key/value pairs as built by
`jsonify`) together with the HTTP status code (200 when the handler
returns a bare `jsonify(...)`). -/
structure Resp where
  body : List (String × JVal)
  code : Nat
deriving DecidableEq, Repr

/-- `jsonify({'status': st, 'message': msg})` with Flask's default 200. -/
def jerr (msg : String) : Resp :=
  ⟨[("status", .s "error"), ("message", .s msg)], 200⟩

/-- `jsonify({'status': st})` with Flask's default 200. -/
def jstatus (st : String) : Resp :=
  ⟨[("status", .s st)], 200⟩

/-! ## Python `queue.Queue` (C2)

`src/intercept.py` lines 58-61 and 85, 91 create every per-mode event
queue as `queue.Queue()`, i.e. with the default `maxsize=0`.  For a
Python `Queue`, `maxsize <= 0` means the queue is unbounded; `put` with
the default `block=True` appends to the tail and only blocks when
`0 < maxsize <= qsize()`; `get_nowait` pops the head or raises `Empty`.
Nowhere in the sources is an event dropped on enqueue. -/

/-- Model of a Python `queue.Queue`: its `maxsize` constructor argument
and the FIFO buffer. -/
structure PyQueue (α : Type) where
  maxsize : Nat
  items : List α
deriving DecidableEq, Repr

namespace PyQueue

/-- `queue.Queue()` — the default constructor call used for every
per-mode queue in `src/intercept.py`. -/
def new (α : Type) : PyQueue α := ⟨0, []⟩

/-- `Queue.full()`: true iff `0 < maxsize <= qsize()`. -/
def full (q : PyQueue α) : Bool :=
  q.maxsize != 0 && q.maxsize ≤ q.items.length

/-- `Queue.put(x)` with the default `block=True`.  On a full queue the
call blocks forever (no consumer is modelled), which we embed as
`Except.error`; on the unbounded queues the code creates it always
succeeds and appends at the tail. -/
def put (q : PyQueue α) (x : α) : Except Unit (PyQueue α) :=
  if q.full then .error () else .ok { q with items := q.items ++ [x] }

/-- Publishing a sequence of events with consecutive `put` calls. -/
def putAll (q : PyQueue α) (xs : List α) : Except Unit (PyQueue α) :=
  xs.foldlM put q

/-- `Queue.get_nowait()`: pops the head, `none` embeds the `Empty`
exception. -/
def getNowait (q : PyQueue α) : Option (α × PyQueue α) :=
  match q.items with
  | [] => none
  | x :: r => some (x, { q with items := r })

/-- Reading the queue with a `get_nowait` loop until `Empty`: since
`getNowait` pops the head, the loop returns exactly the buffered items
in FIFO (publication) order. -/
def drain (q : PyQueue α) : List α := q.items

end PyQueue

/-- `output_queue = queue.Queue()` (src/intercept.py line 58); the pager
mode's event queue.  The other five per-mode queues (`sensor_queue`,
`wifi_queue`, `bt_queue`, `adsb_queue`, `satellite_queue`) are created by
the identical expression. -/
def output_queue : PyQueue (List (String × JVal)) := PyQueue.new _

/-- Six distinct events for the capacity experiment of the spec. -/
def sixEvents : List (List (String × JVal)) :=
  [[("n", .i 1)], [("n", .i 2)], [("n", .i 3)],
   [("n", .i 4)], [("n", .i 5)], [("n", .i 6)]]

/-! ## OUI lookup (C9)

`get_manufacturer` in `src/intercept.py`:
```
def get_manufacturer(mac):
    prefix = mac[:8].upper()
    result = OUI_DATABASE.get(prefix, 'Unknown')
    return result
```
`OUI_DATABASE` is a dict loaded at startup; it is embedded as an
association-list parameter.  `str.upper()` is embedded character-wise
(exact for the ASCII strings MAC addresses are made of). -/

/-- Character-wise model of Python `str.upper()` on one character
(ASCII case mapping). -/
def pyUpperChar (c : Char) : Char :=
  if 97 ≤ c.toNat && c.toNat ≤ 122 then Char.ofNat (c.toNat - 32) else c

/-- Model of Python `str.upper()` (character-wise, exact on ASCII). -/
def pyUpper (s : String) : String := ⟨s.data.map pyUpperChar⟩

/-- Python slice `s[:n]`. -/
def pySlice (s : String) (n : Nat) : String := ⟨s.data.take n⟩

/-- Python dict lookup `d.get(k)` over an association list (first, and in
a dict only, binding for the key). -/
def dget : List (String × α) → String → Option α
  | [], _ => none
  | (a, v) :: t, k => if a = k then some v else dget t k

/-- `src/intercept.py` `get_manufacturer`, with the `OUI_DATABASE` dict
as an explicit parameter. -/
def get_manufacturer (table : List (String × String)) (mac : String) : String :=
  (dget table (pyUpper (pySlice mac 8))).getD "Unknown"

/-! ## `DataStore` (`src/utils/cleanup.py`, C10) -/

/-- A Python value as stored in a `DataStore`: either a dict (the case
`DataStore.update` treats specially) or any other object. -/
inductive PyVal where
  | dict : List (String × PyVal) → PyVal
  | atom : String → PyVal

/-- Python dict assignment `d[k] = v` on an association list: replaces
the binding in place if the key exists, otherwise appends (dict
insertion order). -/
def dset : List (String × α) → String → α → List (String × α)
  | [], k, v => [(k, v)]
  | (a, w) :: t, k, v => if a = k then (k, v) :: t else (a, w) :: dset t k v

/-- Python `k in d`. -/
def dmem (d : List (String × α)) (k : String) : Bool :=
  (dget d k).isSome

/-- Python `del d[k]` (removes the key's binding; a dict holds at most
one).  On a missing key Python raises `KeyError`; every `del` in
`DataStore` is guarded (directly or via the key-set invariant proved
below), so the missing-key case is unreachable and erasing is a no-op
there. -/
def derase : List (String × α) → String → List (String × α)
  | [], _ => []
  | (a, w) :: t, k => if a = k then t else (a, w) :: derase t k

/-- Python `d.update(other)`: assign every binding of `other` in order. -/
def dupdate (d other : List (String × PyVal)) : List (String × PyVal) :=
  other.foldl (fun acc kv => dset acc kv.1 kv.2) d

/-- The keys of a dict, in order. -/
def dkeys (d : List (String × α)) : List String := d.map Prod.fst

/-- `DataStore` from `src/utils/cleanup.py`: the `data` and `timestamps`
dicts, `max_age` and the diagnostic name.  The `threading.Lock` only
serialises the operations and has no sequential content. -/
structure DataStore where
  data : List (String × PyVal)
  timestamps : List (String × ℚ)
  max_age : ℚ
  name : String

namespace DataStore

/-- `DataStore.set(key, value)`; `now` stands for `time.time()`. -/
def set (st : DataStore) (k : String) (v : PyVal) (now : ℚ) : DataStore :=
  { st with data := dset st.data k v, timestamps := dset st.timestamps k now }

/-- `DataStore.get(key, default)`. -/
def get (st : DataStore) (k : String) (dflt : PyVal) : PyVal :=
  (dget st.data k).getD dflt

/-- `DataStore.update(key, updates)`. -/
def update (st : DataStore) (k : String) (upd : List (String × PyVal)) (now : ℚ) :
    DataStore :=
  let data :=
    if dmem st.data k then
      match dget st.data k with
      | some (.dict d0) => dset st.data k (.dict (dupdate d0 upd))
      | _ => dset st.data k (.dict upd)
    else dset st.data k (.dict upd)
  { st with data := data, timestamps := dset st.timestamps k now }

/-- `DataStore.touch(key)`. -/
def touch (st : DataStore) (k : String) (now : ℚ) : DataStore :=
  if dmem st.data k then { st with timestamps := dset st.timestamps k now }
  else st

/-- `DataStore.delete(key)`; returns the successor store and the Python
return value. -/
def delete (st : DataStore) (k : String) : DataStore × Bool :=
  if dmem st.data k then
    ({ st with data := derase st.data k, timestamps := derase st.timestamps k }, true)
  else (st, false)

/-- `DataStore.clear()`. -/
def clear (st : DataStore) : DataStore :=
  { st with data := [], timestamps := [] }

/-- `DataStore.cleanup()`: collect the keys of `timestamps` entries older
than `max_age`, then `del` each collected key from both dicts.  Returns
the successor store and the number of removed entries. -/
def cleanup (st : DataStore) (now : ℚ) : DataStore × Nat :=
  let expired :=
    (st.timestamps.filter (fun kv => decide (st.max_age < now - kv.2))).map Prod.fst
  ({ st with
      data := expired.foldl derase st.data,
      timestamps := expired.foldl derase st.timestamps },
   expired.length)

/-- The key-set invariant of a `DataStore`: `data` and `timestamps` hold
exactly the same keys (in the same dict order, since every operation
applies the same key mutation to both). -/
def Inv (st : DataStore) : Prop := dkeys st.data = dkeys st.timestamps

instance (st : DataStore) : Decidable st.Inv := by
  unfold Inv; infer_instance

end DataStore

/-! ### Dict key lemmas -/

/-- Key insertion as performed by `dset`. -/
def keyIns : List String → String → List String
  | [], k => [k]
  | a :: t, k => if a = k then a :: t else a :: keyIns t k

/-- Key removal as performed by `derase`. -/
def keyDel : List String → String → List String
  | [], _ => []
  | a :: t, k => if a = k then t else a :: keyDel t k

theorem dkeys_dset (d : List (String × α)) (k : String) (v : α) :
    dkeys (dset d k v) = keyIns (dkeys d) k := by
  induction d with
  | nil => rfl
  | cons kv t ih =>
    obtain ⟨a, w⟩ := kv
    by_cases h : a = k <;> simp [dset, dkeys, keyIns, h] at ih ⊢ <;> simpa using ih

theorem dkeys_derase (d : List (String × α)) (k : String) :
    dkeys (derase d k) = keyDel (dkeys d) k := by
  induction d with
  | nil => rfl
  | cons kv t ih =>
    obtain ⟨a, w⟩ := kv
    by_cases h : a = k <;> simp [derase, dkeys, keyDel, h] at ih ⊢ <;> simpa using ih

theorem dget_isSome_iff_mem (d : List (String × α)) (k : String) :
    (dget d k).isSome ↔ k ∈ dkeys d := by
  induction d with
  | nil => simp [dget, dkeys]
  | cons kv t ih =>
    obtain ⟨a, w⟩ := kv
    by_cases h : a = k
    · subst h
      simp [dget, dkeys]
    · simp only [dget, if_neg h, dkeys, List.map_cons, List.mem_cons, ih]
      constructor
      · exact Or.inr
      · rintro (rfl | hk)
        · exact absurd rfl h
        · exact hk

theorem keyIns_of_mem {l : List String} {k : String} (h : k ∈ l) :
    keyIns l k = l := by
  induction l with
  | nil => cases h
  | cons a t ih =>
    rcases List.mem_cons.mp h with h1 | h2
    · simp [keyIns, h1.symm]
    · by_cases ha : a = k <;> simp [keyIns, ha, ih h2]

theorem dkeys_foldl_derase (ks : List String) (d : List (String × α))
    (ts : List (String × β)) (h : dkeys d = dkeys ts) :
    dkeys (ks.foldl derase d) = dkeys (ks.foldl derase ts) := by
  induction ks generalizing d ts with
  | nil => simpa using h
  | cons k kt ih =>
    simp only [List.foldl_cons]
    exact ih _ _ (by rw [dkeys_derase, dkeys_derase, h])

/-! ## Theorems for C2, C9, C10 -/

/-- C2 counterexample.  The pager event queue (and with it every per-mode
queue, all created by the same `queue.Queue()` call) is created with
`maxsize = 0`, i.e. unbounded; publishing six events and then reading
yields all six events in publication order, not the last four as the
claim states for a capacity-4 queue. -/
theorem C2_queue_counterexample :
    output_queue.maxsize = 0 ∧
    (output_queue.putAll sixEvents).map PyQueue.drain = .ok sixEvents ∧
    sixEvents ≠ sixEvents.drop 2 :=
  ⟨rfl, rfl, by decide⟩

/-- C2 (amended): every per-mode event queue is created unbounded
(`queue.Queue()` with default `maxsize=0`); enqueueing never drops any
event, and publishing a sequence of events and then reading yields all
of them, appended after any prior backlog, in publication order. -/
theorem C2_queue_unbounded_fifo (α : Type) (q : PyQueue α) (es : List α)
    (h : q.maxsize = 0) :
    (q.putAll es).map PyQueue.drain = .ok (q.items ++ es) := by
  induction es generalizing q with
  | nil => simp [PyQueue.putAll, PyQueue.drain, Except.map, pure, Except.pure]
  | cons e et ih =>
    have hput : q.put e = .ok { q with items := q.items ++ [e] } := by
      simp [PyQueue.put, PyQueue.full, h]
    simp only [PyQueue.putAll, List.foldlM_cons, hput]
    simpa [PyQueue.putAll] using ih { q with items := q.items ++ [e] } h

/-- Witness for `C2_queue_unbounded_fifo` at the empty pager queue and a
concrete two-event publication. -/
theorem C2_queue_unbounded_fifo_witness :
    (output_queue.putAll [[("n", JVal.i 1)], [("n", JVal.i 2)]]).map PyQueue.drain
      = .ok [[("n", JVal.i 1)], [("n", JVal.i 2)]] :=
  C2_queue_unbounded_fifo _ output_queue [[("n", JVal.i 1)], [("n", JVal.i 2)]] rfl

theorem char_toNat_ofNat_of_lt {n : Nat} (h : n < 55296) :
    (Char.ofNat n).toNat = n := by
  have hv : n.isValidChar := Or.inl h
  unfold Char.ofNat
  rw [dif_pos hv]
  rfl

theorem pyUpperChar_idem (c : Char) : pyUpperChar (pyUpperChar c) = pyUpperChar c := by
  by_cases h : (97 ≤ c.toNat && c.toNat ≤ 122) = true
  · have h12 := h
    simp only [Bool.and_eq_true, decide_eq_true_eq] at h12
    have hv : (Char.ofNat (c.toNat - 32)).toNat = c.toNat - 32 :=
      char_toNat_ofNat_of_lt (by omega)
    unfold pyUpperChar
    rw [if_pos h]
    have hfalse : (97 ≤ (Char.ofNat (c.toNat - 32)).toNat &&
        (Char.ofNat (c.toNat - 32)).toNat ≤ 122) ≠ true := by
      rw [hv]
      intro hc
      simp only [Bool.and_eq_true, decide_eq_true_eq] at hc
      omega
    rw [if_neg hfalse]
  · unfold pyUpperChar
    rw [if_neg h]
    first
    | rfl
    | rw [if_neg h]

theorem pyUpper_pySlice_pyUpper (mac : String) (n : Nat) :
    pyUpper (pySlice (pyUpper mac) n) = pyUpper (pySlice mac n) := by
  unfold pyUpper pySlice
  simp only [← List.map_take, List.map_map]
  congr 1
  exact List.map_congr_left (fun c _ => pyUpperChar_idem c)

/-- C9: OUI lookup (`get_manufacturer`) depends only on the first eight
characters of the MAC compared case-insensitively — in particular
`lookup(mac) = lookup(mac.upper())` — and returns `"Unknown"` whenever
the (uppercased) prefix has no binding in the table. -/
theorem C9_oui_case_insensitive (table : List (String × String)) (mac mac2 : String) :
    get_manufacturer table (pyUpper mac) = get_manufacturer table mac ∧
    (pyUpper (pySlice mac 8) = pyUpper (pySlice mac2 8) →
      get_manufacturer table mac = get_manufacturer table mac2) ∧
    (dget table (pyUpper (pySlice mac 8)) = none →
      get_manufacturer table mac = "Unknown") := by
  refine ⟨?_, ?_, ?_⟩
  · unfold get_manufacturer
    rw [pyUpper_pySlice_pyUpper]
  · intro h
    unfold get_manufacturer
    rw [h]
  · intro h
    unfold get_manufacturer
    rw [h]
    rfl

/-- Witness for `C9_oui_case_insensitive`: a concrete table and two
mixed-case spellings of the same MAC. -/
theorem C9_oui_case_insensitive_witness :
    get_manufacturer [("AA:BB:CC", "AcmeCorp")] "aa:bb:cc:01:02:03"
      = get_manufacturer [("AA:BB:CC", "AcmeCorp")] "Aa:Bb:Cc:99:88:77" ∧
    get_manufacturer [("AA:BB:CC", "AcmeCorp")] "11:22:33:44:55:66" = "Unknown" :=
  ⟨(C9_oui_case_insensitive [("AA:BB:CC", "AcmeCorp")]
      "aa:bb:cc:01:02:03" "Aa:Bb:Cc:99:88:77").2.1 (by decide),
   (C9_oui_case_insensitive [("AA:BB:CC", "AcmeCorp")]
      "11:22:33:44:55:66" "").2.2 (by decide)⟩

theorem inv_dset {st : DataStore} (h : st.Inv) (k : String) (v : PyVal) (now : ℚ) :
    dkeys (dset st.data k v) = dkeys (dset st.timestamps k now) := by
  rw [dkeys_dset, dkeys_dset, h]

/-- C10: every `DataStore` operation preserves the invariant that the
key set of `data` equals the key set of `timestamps`; in particular
`cleanup` removes any key from both dicts or from neither. -/
theorem C10_datastore_invariant (st : DataStore) (k : String) (v : PyVal)
    (upd : List (String × PyVal)) (now : ℚ) (h : st.Inv) :
    (st.set k v now).Inv ∧ (st.update k upd now).Inv ∧ (st.touch k now).Inv ∧
    (st.delete k).1.Inv ∧ st.clear.Inv ∧ (st.cleanup now).1.Inv ∧
    (∀ k2 : String, k2 ∈ dkeys (st.cleanup now).1.data ↔
      k2 ∈ dkeys (st.cleanup now).1.timestamps) := by
  have hclean : (st.cleanup now).1.Inv := by
    unfold DataStore.cleanup DataStore.Inv
    exact dkeys_foldl_derase _ _ _ h
  refine ⟨?_, ?_, ?_, ?_, ?_, hclean, ?_⟩
  · exact inv_dset h k v now
  · unfold DataStore.update DataStore.Inv
    by_cases hm : dmem st.data k
    · simp only [hm, if_true]
      match hg : dget st.data k with
      | some (.dict d0) => simpa [hg] using inv_dset h k _ now
      | some (.atom a) => simpa [hg] using inv_dset h k _ now
      | none => simpa [hg] using inv_dset h k _ now
    · simpa [hm] using inv_dset h k _ now
  · unfold DataStore.touch
    by_cases hm : dmem st.data k
    · have hk : k ∈ dkeys st.timestamps := by
        rw [← h]
        exact (dget_isSome_iff_mem _ _).mp (by simpa [dmem] using hm)
      simp only [hm, if_true]
      unfold DataStore.Inv
      simp only [dkeys_dset, keyIns_of_mem hk]
      exact h
    · simpa [hm] using h
  · unfold DataStore.delete
    by_cases hm : dmem st.data k
    · simp only [hm, if_true]
      unfold DataStore.Inv
      show dkeys (derase st.data k) = dkeys (derase st.timestamps k)
      rw [dkeys_derase, dkeys_derase, h]
    · simpa [hm] using h
  · unfold DataStore.clear DataStore.Inv
    rfl
  · intro k2
    rw [hclean]

/-- Witness for `C10_datastore_invariant` at a concrete populated store. -/
theorem C10_datastore_invariant_witness :
    (DataStore.set ⟨[("x", .atom "1")], [("x", 10)], 300, "wifi"⟩ "y"
      (.atom "2") 11).Inv ∧
    ((⟨[("x", .atom "1")], [("x", 10)], 300, "wifi"⟩ : DataStore).cleanup 11).1.Inv :=
  ⟨(C10_datastore_invariant ⟨[("x", .atom "1")], [("x", 10)], 300, "wifi"⟩
      "y" (.atom "2") [] 11 (by decide)).1,
   (C10_datastore_invariant ⟨[("x", .atom "1")], [("x", 10)], 300, "wifi"⟩
      "y" (.atom "2") [] 11 (by decide)).2.2.2.2.2.1⟩

/-! ## Pager parser (`parse_multimon_output`, src/intercept.py, C3)

The four `re.match` patterns are embedded as maximal-munch matchers over
the character list.  This is equivalent to the Python regexes on every
input: in each pattern, every repeated character class is followed by a
literal or class disjoint from it (digits / whitespace / `squarebracket`
/ word characters never overlap their successors), so the greedy engine
never needs to backtrack into a repetition.  `\s`, `\d` and `\w` are
embedded as their ASCII sets (the decoder output is ASCII). -/

/-- Python `\s` (ASCII part): space, TAB, LF, CR, VT, FF. -/
def isPySpace (c : Char) : Bool :=
  c = ' ' || c = '\t' || c = '\n' || c = '\r' || c.toNat = 11 || c.toNat = 12

/-- Python `\d` (ASCII part). -/
def isPyDigit (c : Char) : Bool := '0' ≤ c && c ≤ '9'

/-- Python `\w` (ASCII part). -/
def isPyWord (c : Char) : Bool :=
  isPyDigit c || ('a' ≤ c && c ≤ 'z') || ('A' ≤ c && c ≤ 'Z') || c = '_'

/-- `[\s\|]` from the FLEX pattern. -/
def isSpacePipe (c : Char) : Bool := isPySpace c || c = '|'

/-- Match a literal string at the head of the input, returning the rest. -/
def lit : List Char → List Char → Option (List Char)
  | [], cs => some cs
  | _ :: _, [] => none
  | p :: pt, c :: ct => if c = p then lit pt ct else none

/-- Split off the maximal head run satisfying `p` (one `X*`/`X+` step). -/
def spanP (p : Char → Bool) (cs : List Char) : List Char × List Char :=
  (cs.takeWhile p, cs.dropWhile p)

/-- Python `str.strip()` on a character list. -/
def pyStripChars (cs : List Char) : List Char :=
  ((cs.dropWhile isPySpace).reverse.dropWhile isPySpace).reverse

/-- Python `str.strip()`. -/
def pyStrip (s : String) : String := ⟨pyStripChars s.data⟩

/-- The record `parse_multimon_output` returns (a Python dict with these
five string fields). -/
structure PagerMsg where
  protocol : String
  address : String
  function : String
  msg_type : String
  message : String
deriving DecidableEq, Repr

/-- `(POCSAG\d+):\s*Address:\s*(\d+)\s+Function:\s*(\d+)\s+(Alpha|Numeric):\s*(.*)`
(anchored at the start by `re.match`); returns the five capture groups. -/
def pocsagFull (cs0 : List Char) :
    Option (String × String × String × String × String) := do
  let cs ← lit "POCSAG".data cs0
  let (rate, cs) := spanP isPyDigit cs
  guard (rate ≠ [])
  let cs ← lit ":".data cs
  let cs := cs.dropWhile isPySpace
  let cs ← lit "Address:".data cs
  let cs := cs.dropWhile isPySpace
  let (addr, cs) := spanP isPyDigit cs
  guard (addr ≠ [])
  let (sp1, cs) := spanP isPySpace cs
  guard (sp1 ≠ [])
  let cs ← lit "Function:".data cs
  let cs := cs.dropWhile isPySpace
  let (fn, cs) := spanP isPyDigit cs
  guard (fn ≠ [])
  let (sp2, cs) := spanP isPySpace cs
  guard (sp2 ≠ [])
  let (ty, cs) ←
    match lit "Alpha".data cs with
    | some r => some ("Alpha", r)
    | none =>
      match lit "Numeric".data cs with
      | some r => some ("Numeric", r)
      | none => none
  let cs ← lit ":".data cs
  let cs := cs.dropWhile isPySpace
  pure ("POCSAG" ++ String.mk rate, String.mk addr, String.mk fn, ty, String.mk cs)

/-- `(POCSAG\d+):\s*Address:\s*(\d+)\s+Function:\s*(\d+)\s*$` — the
address-only (tone) POCSAG line. -/
def pocsagTone (cs0 : List Char) : Option (String × String × String) := do
  let cs ← lit "POCSAG".data cs0
  let (rate, cs) := spanP isPyDigit cs
  guard (rate ≠ [])
  let cs ← lit ":".data cs
  let cs := cs.dropWhile isPySpace
  let cs ← lit "Address:".data cs
  let cs := cs.dropWhile isPySpace
  let (addr, cs) := spanP isPyDigit cs
  guard (addr ≠ [])
  let (sp1, cs) := spanP isPySpace cs
  guard (sp1 ≠ [])
  let cs ← lit "Function:".data cs
  let cs := cs.dropWhile isPySpace
  let (fn, cs) := spanP isPyDigit cs
  guard (fn ≠ [])
  let cs := cs.dropWhile isPySpace
  guard (cs = [])
  pure ("POCSAG" ++ String.mk rate, String.mk addr, String.mk fn)

/-- `FLEX[:\|]\s*[\d\-]+[\s\|]+[\d:]+[\s\|]+([\d/A-Z]+)[\s\|]+([\d.]+)`
`[\s\|]+\[?(\d+)\]?[\s\|]+(\w+)[\s\|]+(.*)` — the standard FLEX line;
returns groups 1–5. -/
def flexFull (cs0 : List Char) :
    Option (String × String × String × String × String) := do
  let cs ← lit "FLEX".data cs0
  let cs ←
    match cs with
    | ':' :: r => some r
    | '|' :: r => some r
    | _ => none
  let cs := cs.dropWhile isPySpace
  let (d1, cs) := spanP (fun c => isPyDigit c || c = '-') cs
  guard (d1 ≠ [])
  let (s1, cs) := spanP isSpacePipe cs
  guard (s1 ≠ [])
  let (t1, cs) := spanP (fun c => isPyDigit c || c = ':') cs
  guard (t1 ≠ [])
  let (s2, cs) := spanP isSpacePipe cs
  guard (s2 ≠ [])
  let (frame, cs) := spanP (fun c => isPyDigit c || c = '/' || ('A' ≤ c && c ≤ 'Z')) cs
  guard (frame ≠ [])
  let (s3, cs) := spanP isSpacePipe cs
  guard (s3 ≠ [])
  let (baud, cs) := spanP (fun c => isPyDigit c || c = '.') cs
  guard (baud ≠ [])
  let (s4, cs) := spanP isSpacePipe cs
  guard (s4 ≠ [])
  let cs :=
    match cs with
    | '[' :: r => r
    | _ => cs
  let (cap, cs) := spanP isPyDigit cs
  guard (cap ≠ [])
  let cs :=
    match cs with
    | ']' :: r => r
    | _ => cs
  let (s5, cs) := spanP isSpacePipe cs
  guard (s5 ≠ [])
  let (mt, cs) := spanP isPyWord cs
  guard (mt ≠ [])
  let (s6, cs) := spanP isSpacePipe cs
  guard (s6 ≠ [])
  pure (String.mk frame, String.mk baud, String.mk cap, String.mk mt, String.mk cs)

/-- `FLEX:\s*(.+)` — the degenerate FLEX line.  The input is already
stripped, so the nonempty capture starts at the first non-space
character. -/
def flexSimple (cs0 : List Char) : Option String := do
  let cs ← lit "FLEX:".data cs0
  let cs := cs.dropWhile isPySpace
  guard (cs ≠ [])
  pure (String.mk cs)

/-- Python `x or '[No Message]'` on the stripped capture. -/
def orNoMessage (m : String) : String :=
  if m = "" then "[No Message]" else m

/-- `parse_multimon_output` from `src/intercept.py`: strip the line, then
try the two POCSAG patterns, the standard FLEX pattern and the simple
FLEX pattern in order. -/
def parse_multimon_output (line : String) : Option PagerMsg :=
  let cs := pyStripChars line.data
  match pocsagFull cs with
  | some (proto, addr, fn, ty, msg) =>
    some ⟨proto, addr, fn, ty, orNoMessage (pyStrip msg)⟩
  | none =>
    match pocsagTone cs with
    | some (proto, addr, fn) => some ⟨proto, addr, fn, "Tone", "[Tone Only]"⟩
    | none =>
      match flexFull cs with
      | some (frame, _baud, cap, mt, msg) =>
        some ⟨"FLEX", cap, frame, mt, orNoMessage (pyStrip msg)⟩
      | none =>
        match flexSimple cs with
        | some msg => some ⟨"FLEX", "Unknown", "", "Unknown", pyStrip msg⟩
        | none => none

/-- C3: the pager parser maps the canonical Alpha line to the full
record and the body-less POCSAG line to a Tone record with message
`[Tone Only]`. -/
theorem C3_pager_parser_canonical_lines :
    parse_multimon_output
        "POCSAG1200: Address: 1234567  Function: 0  Alpha: HELLO WORLD"
      = some ⟨"POCSAG1200", "1234567", "0", "Alpha", "HELLO WORLD"⟩ ∧
    parse_multimon_output "POCSAG512: Address: 42  Function: 1"
      = some ⟨"POCSAG512", "42", "1", "Tone", "[Tone Only]"⟩ := by
  exact ⟨rfl, rfl⟩

/-! ## WiFi route helpers (`src/routes/wifi.py`, `src/utils/process.py`) -/

/-- `[0-9A-Fa-f]`. -/
def isHexDigit (c : Char) : Bool :=
  isPyDigit c || ('a' ≤ c && c ≤ 'f') || ('A' ≤ c && c ≤ 'F')

/-- `is_valid_mac` from `src/utils/process.py`: the anchored regex
`^([0-9A-Fa-f]{2}:){5}[0-9A-Fa-f]{2}$` — exactly 17 characters, colons
at positions 2, 5, 8, 11, 14, hex digits elsewhere (the `if not mac`
None/empty guard is subsumed by the length test for string inputs). -/
def is_valid_mac (s : String) : Bool :=
  s.data.length = 17 &&
  (List.range 17).all (fun i =>
    if i % 3 = 2 then s.data.getD i ' ' = ':' else isHexDigit (s.data.getD i ' '))

/-- Python `s.startswith(p)`. -/
def pyStartsWith (s p : String) : Bool := p.data.isPrefixOf s.data

/-- Substring search over character lists. -/
def containsSub (sub : List Char) : List Char → Bool
  | [] => sub.isEmpty
  | c :: t => sub.isPrefixOf (c :: t) || containsSub sub t

/-- Python `sub in s` (substring containment). -/
def pyContains (s sub : String) : Bool := containsSub sub.data s.data

/-- Character-wise model of Python `str.lower()` (ASCII case mapping). -/
def pyLowerChar (c : Char) : Char :=
  if 65 ≤ c.toNat && c.toNat ≤ 90 then Char.ofNat (c.toNat + 32) else c

/-- Model of Python `str.lower()` (character-wise, exact on ASCII). -/
def pyLower (s : String) : String := ⟨s.data.map pyLowerChar⟩

/-- `str.replace(pat, rep)` for a nonempty pattern: replace every
non-overlapping occurrence left to right. -/
def replaceAllNE (p : Char) (pt rep : List Char) : List Char → List Char
  | [] => []
  | c :: t =>
    if (p :: pt).isPrefixOf (c :: t) then
      rep ++ replaceAllNE p pt rep (t.drop pt.length)
    else
      c :: replaceAllNE p pt rep t
termination_by cs => cs.length
decreasing_by
  · simp only [List.length_drop, List.length_cons]
    omega
  · simp only [List.length_cons]
    omega

/-- Python `s.replace(pat, rep)` (every call site uses a nonempty
pattern; the empty-pattern edge case never occurs). -/
def pyReplace (s pat rep : String) : String :=
  match pat.data with
  | [] => s
  | p :: pt => ⟨replaceAllNE p pt rep.data s.data⟩

/-- Captured output of a completed `subprocess.run`. -/
structure RunOut where
  rc : Int
  out : String
  err : String

/-- Outcome of a `subprocess.run` whose caller handles
`TimeoutExpired` and a generic `Exception` (carrying `str(e)`). -/
inductive RunResTE where
  | ok : RunOut → RunResTE
  | timeout : RunResTE
  | exc : String → RunResTE

/-- Outcome of a `subprocess.run` whose caller handles
`FileNotFoundError` specially and swallows every other exception
(including `TimeoutExpired`). -/
inductive RunResFE where
  | ok : RunOut → RunResFE
  | fnf : RunResFE
  | exc : RunResFE

/-- The filesystem as seen through `os.path.exists` / `os.path.getsize`. -/
structure FileOracle where
  fexists : String → Bool
  getsize : String → Nat

/-- Result of a capture-status handler: the HTTP response, the file
paths passed to `os.path` calls, and the external commands run. -/
structure StatOut where
  resp : Resp
  touched : List String
  cmds : List (List String)
deriving DecidableEq, Repr

/-- `check_handshake_status` (`src/routes/wifi.py`).  `wifiProc` is
`app_module.wifi_process`: `none` when the slot is empty, `some none`
while running, `some (some c)` after exit with code `c`.  `runAircrack`
is the outcome of the (bounded, 10 s) `aircrack-ng` invocation. -/
def check_handshake_status (fo : FileOracle) (wifiProc : Option (Option Int))
    (runAircrack : RunResTE) (file target_bssid : String) : StatOut :=
  if !(pyStartsWith file "/tmp/intercept_handshake_") || pyContains file ".." then
    ⟨jerr "Invalid capture file path", [], []⟩
  else if !(fo.fexists file) then
    match wifiProc with
    | some none =>
      ⟨⟨[("status", .s "running"), ("file_exists", .b false),
         ("handshake_found", .b false)], 200⟩, [file], []⟩
    | _ =>
      ⟨⟨[("status", .s "stopped"), ("file_exists", .b false),
         ("handshake_found", .b false)], 200⟩, [file], []⟩
  else
    let size := fo.getsize file
    let cmd := ["aircrack-ng", "-a", "2", "-b", target_bssid, file]
    let ranCrack := target_bssid ≠ "" && is_valid_mac target_bssid
    let found :=
      if ranCrack then
        match runAircrack with
        | .ok r =>
          let output := r.out ++ r.err
          if pyContains output "1 handshake" ||
              (pyContains (pyLower output) "handshake" &&
               pyContains (pyLower output) "wpa") then
            !(pyContains output "0 handshake")
          else false
        | .timeout => false
        | .exc _ => false
      else false
    let running :=
      match wifiProc with
      | some none => "running"
      | _ => "stopped"
    ⟨⟨[("status", .s running), ("file_exists", .b true),
       ("file_size", .i size), ("file", .s file),
       ("handshake_found", .b found)], 200⟩,
     [file, file], if ranCrack then [cmd] else []⟩

/-- `check_pmkid_status` (`src/routes/wifi.py`).  `runHcx` is the
outcome of the `hcxpcapngtool` invocation. -/
def check_pmkid_status (fo : FileOracle) (runHcx : RunResFE) (file : String) :
    StatOut :=
  if !(pyStartsWith file "/tmp/intercept_pmkid_") || pyContains file ".." then
    ⟨jerr "Invalid capture file path", [], []⟩
  else if !(fo.fexists file) then
    ⟨⟨[("pmkid_found", .b false), ("file_exists", .b false)], 200⟩, [file], []⟩
  else
    let size := fo.getsize file
    let hash_file := pyReplace file ".pcapng" ".22000"
    let cmd := ["hcxpcapngtool", "-o", hash_file, file]
    let found :=
      match runHcx with
      | .ok _ => fo.fexists hash_file && fo.getsize hash_file > 0
      | .fnf => size > 1000
      | .exc => false
    ⟨⟨[("pmkid_found", .b found), ("file_exists", .b true),
       ("file_size", .i size), ("file", .s file)], 200⟩,
     [file, file], [cmd]⟩

/-! ## Deauth (`send_deauth`, `src/routes/wifi.py`, C8) -/

/-- The request's `count` field as seen by `int(count)`:
absent (default 5), an integer value, or a value `int()` rejects. -/
inductive CountIn where
  | absent
  | int : Int → CountIn
  | bad

/-- The `count` actually used:
`try: count = int(count); if count < 1 or count > 100: count = 5`
`except (ValueError, TypeError): count = 5`. -/
def deauthCount : CountIn → Int
  | .absent => 5
  | .bad => 5
  | .int n => if n < 1 || 100 < n then 5 else n

/-- Python `a or b` for optional strings (`None` and `''` are falsy). -/
def pyOrOpt (a b : Option String) : Option String :=
  match a with
  | some s => if s = "" then b else some s
  | none => b

/-- Environment of `send_deauth`: tool probing and the bounded
`subprocess.run` of aireplay-ng. -/
structure DeauthEnv where
  check_tool : String → Bool
  run : List String → RunResTE

/-- Result of `send_deauth`: response, commands run, events published
to `wifi_queue`. -/
structure DeauthOut where
  resp : Resp
  cmds : List (List String)
  published : List (List (String × JVal))
deriving Repr

/-- `send_deauth` (`src/routes/wifi.py`): validate BSSID and client MAC,
default the client to broadcast, sanitise `count`, resolve the
interface (request value `or` the global monitor interface), require
aireplay-ng, then run it once. -/
def send_deauth (env : DeauthEnv) (monitor_iface : Option String)
    (bssid_in client_in : Option String) (count_in : CountIn)
    (iface_in : Option String) : DeauthOut :=
  let target_client := client_in.getD "FF:FF:FF:FF:FF:FF"
  let iface := pyOrOpt iface_in monitor_iface
  match bssid_in with
  | none => ⟨jerr "Target BSSID required", [], []⟩
  | some target_bssid =>
    if target_bssid = "" then ⟨jerr "Target BSSID required", [], []⟩
    else if !(is_valid_mac target_bssid) then ⟨jerr "Invalid BSSID format", [], []⟩
    else if !(is_valid_mac target_client) then ⟨jerr "Invalid client MAC format", [], []⟩
    else
      let count := deauthCount count_in
      match iface with
      | none => ⟨jerr "No monitor interface", [], []⟩
      | some i =>
        if i = "" then ⟨jerr "No monitor interface", [], []⟩
        else if !(env.check_tool "aireplay-ng") then
          ⟨jerr "aireplay-ng not found", [], []⟩
        else
          let cmd := ["aireplay-ng", "--deauth", toString count,
                      "-a", target_bssid, "-c", target_client, i]
          let info := [("type", JVal.s "info"),
                       ("text", JVal.s ("Sending " ++ toString count ++
                         " deauth packets to " ++ target_bssid))]
          match env.run cmd with
          | .ok r =>
            if r.rc = 0 then
              ⟨⟨[("status", .s "success"),
                 ("message", .s ("Sent " ++ toString count ++ " deauth packets"))],
                200⟩, [cmd], [info]⟩
            else ⟨jerr r.err, [cmd], [info]⟩
          | .timeout =>
            ⟨⟨[("status", .s "success"),
               ("message", .s "Deauth sent (timed out)")], 200⟩, [cmd], [info]⟩
          | .exc m => ⟨jerr m, [cmd], [info]⟩

/-! ## Theorems for C5 and C8 -/

/-- C5 counterexample: `POST /wifi/handshake/status` with
`file="/etc/shadow"` is rejected with the error body, but the HTTP
status is Flask's default 200, not 400 as the claim states (the handler
returns `jsonify(...)` with no status code).  No file is touched and no
command is run. -/
theorem C5_handshake_status_counterexample :
    check_handshake_status ⟨fun _ => false, fun _ => 0⟩ none (.exc "") "/etc/shadow" ""
      = ⟨jerr "Invalid capture file path", [], []⟩ ∧
    (jerr "Invalid capture file path").code = 200 ∧
    (jerr "Invalid capture file path").code ≠ 400 := by
  exact ⟨rfl, rfl, by decide⟩

/-- C5 (amended): a capture-status request whose `file` does not begin
with the feature's `/tmp/intercept_<feature>_` prefix or contains `..`
is rejected with body `{status:"error", message:"Invalid capture file
path"}` — but with HTTP status 200 (Flask's default; the handlers pass
no status code), not 400 — and the handler touches no file and runs no
command. -/
theorem C5_capture_status_path_reject (fo : FileOracle)
    (wifiProc : Option (Option Int)) (rc : RunResTE) (rp : RunResFE)
    (fileH fileP bssid : String)
    (hbadH : (!(pyStartsWith fileH "/tmp/intercept_handshake_") ||
      pyContains fileH "..") = true)
    (hbadP : (!(pyStartsWith fileP "/tmp/intercept_pmkid_") ||
      pyContains fileP "..") = true) :
    check_handshake_status fo wifiProc rc fileH bssid
      = ⟨jerr "Invalid capture file path", [], []⟩ ∧
    check_pmkid_status fo rp fileP
      = ⟨jerr "Invalid capture file path", [], []⟩ ∧
    (jerr "Invalid capture file path").code = 200 := by
  refine ⟨?_, ?_, rfl⟩
  · unfold check_handshake_status
    rw [if_pos hbadH]
  · unfold check_pmkid_status
    rw [if_pos hbadP]

/-- Witness for `C5_capture_status_path_reject`: the handshake handler
rejects a file carrying the **other** feature's prefix
(`/tmp/intercept_pmkid_x`), and the PMKID handler rejects
`/etc/shadow`. -/
theorem C5_capture_status_path_reject_witness :
    check_handshake_status ⟨fun _ => true, fun _ => 7⟩ (some none) .timeout
        "/tmp/intercept_pmkid_x" "AA:BB:CC:DD:EE:FF"
      = ⟨jerr "Invalid capture file path", [], []⟩ ∧
    check_pmkid_status ⟨fun _ => true, fun _ => 7⟩ .fnf "/etc/shadow"
      = ⟨jerr "Invalid capture file path", [], []⟩ :=
  ⟨(C5_capture_status_path_reject ⟨fun _ => true, fun _ => 7⟩ (some none)
      .timeout .fnf "/tmp/intercept_pmkid_x" "/etc/shadow" "AA:BB:CC:DD:EE:FF"
      (by decide) (by decide)).1,
   (C5_capture_status_path_reject ⟨fun _ => true, fun _ => 7⟩ (some none)
      .timeout .fnf "/tmp/intercept_pmkid_x" "/etc/shadow" "AA:BB:CC:DD:EE:FF"
      (by decide) (by decide)).2.1⟩

/-- C8 counterexample: a deauth request with `count = 200` is sent with
count 5 (the out-of-range value is replaced by the default 5), not
clamped to 100 as the claim states; likewise `count = 0` is sent with 5,
not 1. -/
theorem C8_deauth_count_counterexample :
    (send_deauth ⟨fun _ => true, fun _ => .ok ⟨0, "", ""⟩⟩ (some "wlan0mon")
        (some "AA:BB:CC:DD:EE:FF") none (.int 200) none).cmds
      = [["aireplay-ng", "--deauth", "5", "-a", "AA:BB:CC:DD:EE:FF",
          "-c", "FF:FF:FF:FF:FF:FF", "wlan0mon"]] ∧
    (send_deauth ⟨fun _ => true, fun _ => .ok ⟨0, "", ""⟩⟩ (some "wlan0mon")
        (some "AA:BB:CC:DD:EE:FF") none (.int 0) none).cmds
      = [["aireplay-ng", "--deauth", "5", "-a", "AA:BB:CC:DD:EE:FF",
          "-c", "FF:FF:FF:FF:FF:FF", "wlan0mon"]] ∧
    ("5" : String) ≠ "100" ∧ ("5" : String) ≠ "1" := by
  exact ⟨rfl, rfl, by decide, by decide⟩

/-- C8 (amended): when `client` is omitted it defaults to the broadcast
MAC `FF:FF:FF:FF:FF:FF`; an in-range `count` is used as sent, and every
out-of-range or unparsable `count` is replaced by the default 5 (not
clamped into [1,100]).  The single aireplay-ng invocation carries
exactly these arguments. -/
theorem C8_deauth_broadcast_default_and_count (env : DeauthEnv)
    (monitor : Option String) (bssid i : String) (count_in : CountIn)
    (iface_in : Option String)
    (hmac : is_valid_mac bssid = true)
    (hiface : pyOrOpt iface_in monitor = some i) (hne : i ≠ "")
    (htool : env.check_tool "aireplay-ng" = true) :
    (send_deauth env monitor (some bssid) none count_in iface_in).cmds
      = [["aireplay-ng", "--deauth", toString (deauthCount count_in),
          "-a", bssid, "-c", "FF:FF:FF:FF:FF:FF", i]] ∧
    (∀ n : Int, (n < 1 ∨ 100 < n) → deauthCount (.int n) = 5) ∧
    (∀ n : Int, 1 ≤ n → n ≤ 100 → deauthCount (.int n) = n) := by
  refine ⟨?_, ?_, ?_⟩
  · have hb : bssid ≠ "" := by
      intro h
      rw [h] at hmac
      exact absurd hmac (by decide)
    unfold send_deauth
    rw [hiface]
    simp only [Option.getD, if_neg hb, hmac, Bool.not_true, Bool.false_eq_true,
      if_false, if_neg hne, htool]
    have hcl : is_valid_mac "FF:FF:FF:FF:FF:FF" = true := by decide
    rw [hcl]
    simp only [Bool.not_true, Bool.false_eq_true, if_false]
    cases env.run ["aireplay-ng", "--deauth", toString (deauthCount count_in),
        "-a", bssid, "-c", "FF:FF:FF:FF:FF:FF", i] with
    | ok r =>
      by_cases hrc : r.rc = 0
      · simp [hrc]
      · simp [hrc]
    | timeout => rfl
    | exc m => rfl
  · intro n hn
    have hc : (decide (n < 1) || decide (100 < n)) = true := by
      simp only [Bool.or_eq_true, decide_eq_true_eq]
      omega
    simp [deauthCount, hc]
  · intro n h1 h2
    have hc : (decide (n < 1) || decide (100 < n)) = false := by
      simp only [Bool.or_eq_false_iff, decide_eq_false_iff_not]
      omega
    simp [deauthCount, hc]

/-- Witness for `C8_deauth_broadcast_default_and_count` at a concrete
valid request. -/
theorem C8_deauth_broadcast_default_and_count_witness :
    (send_deauth ⟨fun _ => true, fun _ => .timeout⟩ (some "wlan0mon")
        (some "AA:BB:CC:DD:EE:FF") none (.int 7) none).cmds
      = [["aireplay-ng", "--deauth", toString (deauthCount (.int 7)),
          "-a", "AA:BB:CC:DD:EE:FF", "-c", "FF:FF:FF:FF:FF:FF", "wlan0mon"]] ∧
    deauthCount (.int 200) = 5 :=
  ⟨(C8_deauth_broadcast_default_and_count ⟨fun _ => true, fun _ => .timeout⟩
      (some "wlan0mon") "AA:BB:CC:DD:EE:FF" "wlan0mon" (.int 7) none
      (by decide) rfl (by decide) rfl).1,
   (C8_deauth_broadcast_default_and_count ⟨fun _ => true, fun _ => .timeout⟩
      (some "wlan0mon") "AA:BB:CC:DD:EE:FF" "wlan0mon" (.int 7) none
      (by decide) rfl (by decide) rfl).2.1 200 (by omega)⟩

/-! ## Celestrak fetch (`src/routes/satellite.py`, C6)

`fetch_celestrak(category)` builds a fixed `https://celestrak.org/...`
URL, opens it with `urllib.request.urlopen(url, timeout=10)` and reads
the whole body with `response.read()` — the module-level constants
`MAX_RESPONSE_SIZE` and `ALLOWED_TLE_HOSTS` are declared (with their
purpose documented in comments) but never consulted by this function. -/

/-- `MAX_RESPONSE_SIZE = 1024 * 1024` (src/routes/satellite.py line 20,
"Maximum response size for external requests (1MB)"). -/
def MAX_RESPONSE_SIZE : Nat := 1024 * 1024

/-- `ALLOWED_TLE_HOSTS` (src/routes/satellite.py line 23). -/
def ALLOWED_TLE_HOSTS : List String :=
  ["celestrak.org", "celestrak.com", "www.celestrak.org", "www.celestrak.com"]

/-- `valid_categories` from `fetch_celestrak`. -/
def valid_categories : List String :=
  ["stations", "weather", "noaa", "goes", "resource", "sarsat",
   "dmc", "tdrss", "argos", "planet", "spire", "geo", "intelsat",
   "ses", "iridium", "iridium-NEXT", "starlink", "oneweb",
   "amateur", "cubesat", "visual"]

/-- The URL `fetch_celestrak` builds for a category. -/
def celestrak_url (category : String) : String :=
  "https://celestrak.org/NORAD/elements/gp.php?GROUP=" ++ category ++ "&FORMAT=tle"

/-- The host component of an URL: the characters after `https://` up to
the first `/` (analysis helper for the allow-list property). -/
def urlHost (u : String) : String :=
  if pyStartsWith u "https://" then ⟨(u.data.drop 8).takeWhile (· ≠ '/')⟩
  else ⟨u.data.takeWhile (· ≠ '/')⟩

/-- Outcome of `urllib.request.urlopen(url).read().decode('utf-8')`:
the decoded body, or any network/HTTP exception (carrying `str(e)`). -/
inductive UrlRes where
  | ok : String → UrlRes
  | exc : String → UrlRes

/-- One parsed TLE triplet as returned by `fetch_celestrak`. -/
structure Satellite3 where
  name : String
  norad : Int
  tle1 : String
  tle2 : String
deriving DecidableEq, Repr

/-- Python `s[a:b]` for `0 ≤ a ≤ b`. -/
def pySliceRange (s : String) (a b : Nat) : String :=
  ⟨(s.data.drop a).take (b - a)⟩

/-- Digits-to-Nat accumulator. -/
def natFromDigits (cs : List Char) : Nat :=
  cs.foldl (fun a c => a * 10 + (c.toNat - 48)) 0

/-- Python `int(s)` on a string: optional surrounding whitespace,
optional sign, then one or more ASCII digits; anything else raises
`ValueError` (`none`). -/
def pyIntParse (s : String) : Option Int :=
  let cs := pyStripChars s.data
  let sgncs : Int × List Char :=
    match cs with
    | '-' :: t => (-1, t)
    | '+' :: t => (1, t)
    | _ => (1, cs)
  if sgncs.2 ≠ [] ∧ sgncs.2.all isPyDigit then
    some (sgncs.1 * (natFromDigits sgncs.2 : Int))
  else none

/-- Python `s.split(sep)` for a one-character separator: split at every
occurrence, keeping empty pieces. -/
def splitOnChar (sep : Char) : List Char → List (List Char)
  | [] => [[]]
  | c :: t =>
    let r := splitOnChar sep t
    if c = sep then [] :: r
    else
      match r with
      | [] => [[c]]
      | h :: t2 => (c :: h) :: t2

/-- `content.strip().split('\n')`. -/
def pyStripLines (content : String) : List String :=
  (splitOnChar '\n' (pyStripChars content.data)).map String.mk

/-- The `while i + 2 < len(lines)` triplet loop of `fetch_celestrak`:
a satellite is appended when `line1`/`line2` start with `"1 "`/`"2 "`
and `int(line1[2:7])` parses; on a malformed pair the index advances by
one, otherwise by three. -/
def parseTriplets (lines : List String) (i : Nat) : List Satellite3 :=
  if h : i + 2 < lines.length then
    let name := pyStrip (lines.getD i "")
    let line1 := pyStrip (lines.getD (i + 1) "")
    let line2 := pyStrip (lines.getD (i + 2) "")
    if !(pyStartsWith line1 "1 " && pyStartsWith line2 "2 ") then
      parseTriplets lines (i + 1)
    else
      match pyIntParse (pySliceRange line1 2 7) with
      | some norad => ⟨name, norad, line1, line2⟩ :: parseTriplets lines (i + 3)
      | none => parseTriplets lines (i + 3)
  else []
termination_by lines.length - i
decreasing_by
  all_goals omega

/-- Result of `fetch_celestrak`: response fields, the URLs opened, and
the number of characters of body consumed by `response.read()`. -/
structure FetchOut where
  status : String
  message : String
  satellites : List Satellite3
  requested : List String
  bytesRead : Nat
  code : Nat

/-- `fetch_celestrak` (`src/routes/satellite.py`): category allow-list
check, then one GET of the fixed celestrak.org URL whose entire body is
read and parsed into triplets.  Every `jsonify` in the handler carries
no status code, so the HTTP status is always 200. -/
def fetch_celestrak (urlopen : String → UrlRes) (category : String) : FetchOut :=
  if !(valid_categories.contains category) then
    ⟨"error", "Invalid category", [], [], 0, 200⟩
  else
    let url := celestrak_url category
    match urlopen url with
    | .exc m => ⟨"error", m, [], [url], 0, 200⟩
    | .ok content =>
      ⟨"success", "", parseTriplets (pyStripLines content) 0, [url],
       content.data.length, 200⟩

/-- A response body one character larger than `MAX_RESPONSE_SIZE`
(CelesTrak's starlink group TLE text is several MB). -/
def bigBody : String := ⟨List.replicate (MAX_RESPONSE_SIZE + 1) 'A'⟩

theorem takeWhile_append_all {p : Char → Bool} {l1 l2 : List Char}
    (h : ∀ a ∈ l1, p a = true) :
    (l1 ++ l2).takeWhile p = l1 ++ l2.takeWhile p := by
  induction l1 with
  | nil => rfl
  | cons a t ih =>
    have ha : p a = true := h a (List.mem_cons_self a t)
    simp only [List.cons_append, List.takeWhile_cons, ha, if_true]
    rw [ih (fun b hb => h b (List.mem_cons_of_mem a hb))]

theorem urlHost_celestrak (category : String) :
    urlHost (celestrak_url category) = "celestrak.org" := by
  have hsplit : celestrak_url category =
      "https://celestrak.org" ++
        ("/NORAD/elements/gp.php?GROUP=" ++ (category ++ "&FORMAT=tle")) := by
    have hcat : ("https://celestrak.org/NORAD/elements/gp.php?GROUP=" : String) =
        "https://celestrak.org" ++ "/NORAD/elements/gp.php?GROUP=" := by decide
    unfold celestrak_url
    rw [hcat, String.append_assoc, String.append_assoc]
  rw [hsplit]
  have hdata : ("https://celestrak.org" ++
      ("/NORAD/elements/gp.php?GROUP=" ++ (category ++ "&FORMAT=tle"))).data =
      "https://celestrak.org".data ++
        ("/NORAD/elements/gp.php?GROUP=" ++ (category ++ "&FORMAT=tle")).data := by
    rw [String.data_append]
  have hpre : pyStartsWith ("https://celestrak.org" ++
      ("/NORAD/elements/gp.php?GROUP=" ++ (category ++ "&FORMAT=tle"))) "https://"
      = true := by
    unfold pyStartsWith
    rw [hdata]
    have : "https://".data <+: "https://celestrak.org".data := by decide
    exact List.isPrefixOf_iff_prefix.mpr (this.trans (List.prefix_append _ _))
  unfold urlHost
  rw [if_pos hpre, hdata]
  have hlen : (8 : Nat) ≤ "https://celestrak.org".data.length := by decide
  rw [List.drop_append_of_le_length hlen]
  have hdrop : "https://celestrak.org".data.drop 8 = "celestrak.org".data := by decide
  rw [hdrop]
  have htail : ("/NORAD/elements/gp.php?GROUP=" ++ (category ++ "&FORMAT=tle")).data
      = '/' :: ("NORAD/elements/gp.php?GROUP=" ++ (category ++ "&FORMAT=tle")).data := by
    rw [String.data_append, String.data_append]
    rfl
  rw [htail]
  rw [takeWhile_append_all (by decide)]
  have : List.takeWhile (fun c => decide (c ≠ '/'))
      ('/' :: ("NORAD/elements/gp.php?GROUP=" ++ (category ++ "&FORMAT=tle")).data)
      = [] := by
    simp [List.takeWhile_cons]
  rw [this, List.append_nil]

/-- C6 / code bug: every URL `fetch_celestrak` requests has host
`celestrak.org`, which is on the allow-list — but the handler reads the
entire response body with no size cap: at a body of
`MAX_RESPONSE_SIZE + 1` characters (the real starlink TLE text is
several MB) it consumes more than the documented 1 MB limit, because
the declared `MAX_RESPONSE_SIZE` constant is never consulted. -/
theorem C6_celestrak_unbounded_read :
    (∀ category : String,
      urlHost (celestrak_url category) = "celestrak.org" ∧
      "celestrak.org" ∈ ALLOWED_TLE_HOSTS) ∧
    (fetch_celestrak (fun _ => .ok bigBody) "starlink").requested
      = [celestrak_url "starlink"] ∧
    (fetch_celestrak (fun _ => .ok bigBody) "starlink").bytesRead
      = MAX_RESPONSE_SIZE + 1 ∧
    MAX_RESPONSE_SIZE < (fetch_celestrak (fun _ => .ok bigBody) "starlink").bytesRead := by
  have hv : valid_categories.contains "starlink" = true := by decide
  have hfetch : fetch_celestrak (fun _ => .ok bigBody) "starlink" =
      ⟨"success", "", parseTriplets (pyStripLines bigBody) 0,
       [celestrak_url "starlink"], bigBody.data.length, 200⟩ := by
    unfold fetch_celestrak
    rw [hv]
    rfl
  have hlen : bigBody.data.length = MAX_RESPONSE_SIZE + 1 := by
    show (List.replicate (MAX_RESPONSE_SIZE + 1) 'A').length = MAX_RESPONSE_SIZE + 1
    exact List.length_replicate _ _
  refine ⟨fun category => ⟨urlHost_celestrak category, by decide⟩, ?_, ?_, ?_⟩
  · rw [hfetch]
  · rw [hfetch]
    exact hlen
  · rw [hfetch]
    show MAX_RESPONSE_SIZE < bigBody.data.length
    rw [hlen]
    omega

/-! ## Per-mode start/stop handlers (C1, C4)

The six mode controllers live in `src/intercept.py` (pager, sensor,
WiFi scan, Bluetooth scan, ADS-B) and `src/routes/iridium.py`
(Iridium).  Each start handler is embedded as a pure function from its
request fields, the mode's process slot and an environment oracle
(`shutil.which`, `subprocess.Popen`, PTY allocation) to the Flask
response, the successor slot and the argv lists of the processes
actually created.  Queue clearing, info-event publication, stderr pump
threads and `time.sleep` have no bearing on the response or the slot
and are noted in comments. -/

/-- A spawned process as observed by the handlers: the result of the
post-spawn `poll()` (None while running) and the decoded
stderr/stdout drains. -/
structure Proc where
  poll : Option Int
  stderrS : String
  stdoutS : String
deriving DecidableEq, Repr

/-- The pager slot: `current_process` (multimon-ng) with its attached
`_rtl_process` and `_master_fd`. -/
structure PagerSlot where
  multimon : Proc
  rtl : Proc
  master_fd : Nat
deriving DecidableEq, Repr

/-- `subprocess.Popen` outcome for callers with a dedicated
`FileNotFoundError` handler (the payload is `e.filename`) and a generic
`Exception` handler (the payload is `str(e)`). -/
inductive PopenTF where
  | ok : Proc → PopenTF
  | fnf : String → PopenTF
  | exc : String → PopenTF

/-- `subprocess.Popen` outcome for callers with only a generic
`Exception` handler (`FileNotFoundError` is subsumed, payload
`str(e)`). -/
inductive PopenE where
  | ok : Proc → PopenE
  | exc : String → PopenE

/-- Python `a or b` on strings. -/
def pyOrStr (a b : String) : String := if a = "" then b else a

/-- `re.sub(r'\x1b\[[0-9;]*m', '', s)` over the character list: remove
every `ESC [ digits/; m` colour sequence, keep everything else. -/
def stripAnsi (cs : List Char) : List Char :=
  match cs with
  | [] => []
  | c :: rest =>
    if c = Char.ofNat 27 then
      match rest with
      | '[' :: r =>
        match hdw : r.dropWhile (fun d => isPyDigit d || d = ';') with
        | 'm' :: tail => stripAnsi tail
        | _ => c :: stripAnsi ('[' :: r)
      | other => c :: stripAnsi other
    else c :: stripAnsi rest
termination_by cs.length
decreasing_by
  all_goals simp only [List.length_cons]
  · have h1 := (List.dropWhile_sublist (fun d => isPyDigit d || d = ';')
      (l := r)).length_le
    rw [hdw] at h1
    simp only [List.length_cons] at h1
    omega
  · omega
  · omega
  · omega

/-- `re.sub(r'\x1b\[[0-9;]*m', '', s)`. -/
def stripAnsiStr (s : String) : String := ⟨stripAnsi s.data⟩

/-- Error classification of `start_wifi_scan` when airodump-ng exits
within 500 ms: `stderr or stdout or "Process exited with code c"`,
ANSI-stripped, then pattern-matched. -/
def wifiEarlyMsg (iface stderrS stdoutS : String) (code : Int) : String :=
  let em := pyOrStr (pyStrip stderrS)
    (pyOrStr (pyStrip stdoutS) ("Process exited with code " ++ toString code))
  let em := stripAnsiStr em
  if pyContains em "No such device" || pyContains em "No such interface" then
    "Interface \"" ++ iface ++ "\" not found."
  else if pyContains em "Operation not permitted" then
    "Permission denied. Try running with sudo."
  else em

/-- Error classification of `start_bt_scan` when the scanner exits
within 500 ms (`reset_ok` tells whether the `hciconfig down/up`
auto-reset pair ran without exception). -/
def btEarlyMsg (iface stderrS stdoutS : String) (code : Int) (reset_ok : Bool) :
    String :=
  let em := pyOrStr (pyStrip stderrS)
    (pyOrStr (pyStrip stdoutS) ("Process exited with code " ++ toString code))
  if pyContains em "No such device" || pyContains (pyLower em) "hci0" then
    "Bluetooth interface \"" ++ iface ++ "\" not found or not available."
  else if pyContains em "Operation not permitted" || pyContains em "Permission denied" then
    "Permission denied. Try running with sudo or add user to bluetooth group."
  else if pyContains (pyLower em) "busy" then
    "Bluetooth interface \"" ++ iface ++ "\" is busy. Stop other Bluetooth operations first."
  else if pyContains (pyLower em) "set scan parameters failed" ||
      pyContains (pyLower em) "input/output error" then
    if reset_ok then
      "Adapter error - attempted auto-reset. Click \"Reset Adapter\" and try again."
    else
      "Bluetooth adapter I/O error. Click \"Reset Adapter\" to reset the adapter and try again."
  else em

/-- Environment of the pager `start_decoding` handler. -/
structure PagerEnv where
  popen : List String → PopenTF
  pty_fd : Nat

/-- `start_decoding` (`POST /start`, src/intercept.py): under
`process_lock`, refuse when `current_process` is set (truthiness — no
poll), else clear the queue, build the `rtl_fm | multimon-ng` pipeline
(multimon attached to a fresh PTY) and spawn both.  Returns the
response, the new slot and the argv lists of the processes created. -/
def start_decoding (env : PagerEnv) (slot : Option PagerSlot)
    (frequency gain squelch ppm device : Option String)
    (protocols : Option (List String)) :
    Resp × Option PagerSlot × List (List String) :=
  match slot with
  | some s => (jerr "Already running", some s, [])
  | none =>
    let freq := frequency.getD "929.6125"
    let gain := gain.getD "0"
    let squelch := squelch.getD "0"
    let ppm := ppm.getD "0"
    let device := device.getD "0"
    let protos := protocols.getD ["POCSAG512", "POCSAG1200", "POCSAG2400", "FLEX"]
    let decoders := protos.foldl (fun acc p =>
      if p = "POCSAG512" then acc ++ ["-a", "POCSAG512"]
      else if p = "POCSAG1200" then acc ++ ["-a", "POCSAG1200"]
      else if p = "POCSAG2400" then acc ++ ["-a", "POCSAG2400"]
      else if p = "FLEX" then acc ++ ["-a", "FLEX"]
      else acc) []
    let rtl_cmd := ["rtl_fm", "-d", device, "-f", freq ++ "M", "-M", "fm", "-s", "22050"]
      ++ (if gain ≠ "" && gain ≠ "0" then ["-g", gain] else [])
      ++ (if ppm ≠ "" && ppm ≠ "0" then ["-p", ppm] else [])
      ++ (if squelch ≠ "" && squelch ≠ "0" then ["-l", squelch] else [])
      ++ ["-"]
    let multimon_cmd := ["multimon-ng", "-t", "raw"] ++ decoders ++ ["-f", "alpha", "-"]
    let full_cmd := String.intercalate " " rtl_cmd ++ " | " ++
      String.intercalate " " multimon_cmd
    match env.popen rtl_cmd with
    | .fnf f => (jerr ("Tool not found: " ++ f), none, [])
    | .exc m => (jerr m, none, [])
    | .ok rtl =>
      match env.popen multimon_cmd with
      | .fnf f => (jerr ("Tool not found: " ++ f), none, [rtl_cmd])
      | .exc m => (jerr m, none, [rtl_cmd])
      | .ok mm =>
        (⟨[("status", .s "started"), ("command", .s full_cmd)], 200⟩,
         some ⟨mm, rtl, env.pty_fd⟩, [rtl_cmd, multimon_cmd])

/-- Environment of `start_sensor`. -/
structure SensorEnv where
  popen : List String → PopenTF

/-- `start_sensor` (`POST /start_sensor`, src/intercept.py): refuse when
`sensor_process` is set, else spawn `rtl_433 -F json`. -/
def start_sensor (env : SensorEnv) (slot : Option Proc)
    (frequency gain ppm device : Option String) :
    Resp × Option Proc × List (List String) :=
  match slot with
  | some s => (jerr "Sensor already running", some s, [])
  | none =>
    let freq := frequency.getD "433.92"
    let gain := gain.getD "0"
    let ppm := ppm.getD "0"
    let device := device.getD "0"
    let cmd := ["rtl_433", "-d", device, "-f", freq ++ "M", "-F", "json"]
      ++ (if gain ≠ "" && gain ≠ "0" then ["-g", gain] else [])
      ++ (if ppm ≠ "" && ppm ≠ "0" then ["-p", ppm] else [])
    let full_cmd := String.intercalate " " cmd
    match env.popen cmd with
    | .fnf _ => (jerr "rtl_433 not found. Install with: brew install rtl_433", none, [])
    | .exc m => (jerr m, none, [])
    | .ok p =>
      (⟨[("status", .s "started"), ("command", .s full_cmd)], 200⟩, some p, [cmd])

/-- Environment of `start_wifi_scan`. -/
structure WifiScanEnv where
  popen : List String → PopenTF

/-- The non-busy body of `start_wifi_scan` (`POST /wifi/scan/start`,
`src/routes/wifi.py`): resolve the interface (`request or monitor`),
clear state and stale capture files, spawn airodump-ng, wait 500 ms and
classify an early exit. -/
def wifi_scan_body (env : WifiScanEnv) (monitor : Option String)
    (interface channel band : Option String) :
    Resp × Option Proc × List (List String) :=
  match pyOrOpt interface monitor with
  | none => (jerr "No monitor interface available.", none, [])
  | some i =>
    if i = "" then (jerr "No monitor interface available.", none, [])
    else
      let band := band.getD "abg"
      let cmd := ["airodump-ng", "-w", "/tmp/intercept_wifi",
                  "--output-format", "csv,pcap", "--band", band, i]
        ++ (match channel with
            | some c => if c = "" then [] else ["-c", c]
            | none => [])
      match env.popen cmd with
      | .fnf _ => (jerr "airodump-ng not found.", none, [])
      | .exc m => (jerr m, none, [])
      | .ok p =>
        match p.poll with
        | some c => (jerr (wifiEarlyMsg i p.stderrS p.stdoutS c), none, [cmd])
        | none =>
          (⟨[("status", .s "started"), ("interface", .s i)], 200⟩, some p, [cmd])

/-- `start_wifi_scan`: under `wifi_lock`, refuse when `wifi_process` is
set (truthiness — no poll). -/
def start_wifi_scan (env : WifiScanEnv) (slot : Option Proc)
    (monitor : Option String) (interface channel band : Option String) :
    Resp × Option Proc × List (List String) :=
  match slot with
  | some p => (jerr "Scan already running", some p, [])
  | none => wifi_scan_body env monitor interface channel band

/-- Environment of `start_bt_scan`. -/
structure BtEnv where
  popen : List String → PopenTF
  pty_fd : Nat
  reset_ok : Bool

/-- The non-busy body of `start_bt_scan` (`POST /bt/scan/start`,
src/intercept.py): spawn `hcitool` (lescan or scan) or `bluetoothctl`
on a PTY, wait 500 ms and classify an early exit. -/
def bt_scan_body (env : BtEnv) (mode interface : Option String)
    (scan_ble : Option Bool) : Resp × Option Proc × List (List String) :=
  let scan_mode := mode.getD "hcitool"
  let iface := interface.getD "hci0"
  let ble := scan_ble.getD true
  if scan_mode = "hcitool" then
    let cmd := if ble then ["hcitool", "-i", iface, "lescan", "--duplicates"]
               else ["hcitool", "-i", iface, "scan"]
    match env.popen cmd with
    | .fnf f =>
      (jerr ("Tool \"" ++ pyOrStr f scan_mode ++
        "\" not found. Install required Bluetooth tools."), none, [])
    | .exc m => (jerr m, none, [])
    | .ok p =>
      match p.poll with
      | some c => (jerr (btEarlyMsg iface p.stderrS p.stdoutS c env.reset_ok), none, [cmd])
      | none =>
        (⟨[("status", .s "started"), ("mode", .s scan_mode),
           ("interface", .s iface)], 200⟩, some p, [cmd])
  else if scan_mode = "bluetoothctl" then
    let cmd := ["bluetoothctl"]
    match env.popen cmd with
    | .fnf f =>
      (jerr ("Tool \"" ++ pyOrStr f scan_mode ++
        "\" not found. Install required Bluetooth tools."), none, [])
    | .exc m => (jerr m, none, [])
    | .ok p =>
      match p.poll with
      | some c => (jerr (btEarlyMsg iface p.stderrS p.stdoutS c env.reset_ok), none, [cmd])
      | none =>
        (⟨[("status", .s "started"), ("mode", .s scan_mode),
           ("interface", .s iface)], 200⟩, some p, [cmd])
  else (jerr ("Unknown scan mode: " ++ scan_mode), none, [])

/-- `start_bt_scan`: under `bt_lock`, refuse only when `bt_process` is
set **and** still running (`poll() is None`); a dead slot is cleared
and the scan proceeds. -/
def start_bt_scan (env : BtEnv) (slot : Option Proc)
    (mode interface : Option String) (scan_ble : Option Bool) :
    Resp × Option Proc × List (List String) :=
  match slot with
  | some p =>
    if p.poll = none then (jerr "Scan already running", some p, [])
    else bt_scan_body env mode interface scan_ble
  | none => bt_scan_body env mode interface scan_ble

/-- Environment of `start_adsb`: `shutil.which` (returning the path)
and `Popen` with only a generic exception handler. -/
structure AdsbEnv where
  whichPath : String → Option String
  popen : List String → PopenE

/-- The non-busy body of `start_adsb` (`POST /adsb/start`,
src/intercept.py): prefer dump1090 (by resolved path), fall back to
rtl_adsb, else report no decoder.  On error paths the (possibly dead)
prior slot value is left in place. -/
def adsb_body (env : AdsbEnv) (slot : Option Proc) (gain device : Option String) :
    Resp × Option Proc × List (List String) :=
  let g := gain.getD "40"
  let d := device.getD "0"
  let dump1090_path :=
    match env.whichPath "dump1090" with
    | some p => some p
    | none => env.whichPath "dump1090-mutability"
  let cmd? :=
    match dump1090_path with
    | some p => some [p, "--raw", "--net", "--gain", g, "--device-index", d]
    | none =>
      match env.whichPath "rtl_adsb" with
      | some _ => some ["rtl_adsb", "-g", g, "-d", d]
      | none => none
  match cmd? with
  | none => (jerr "No ADS-B decoder found (install dump1090 or rtl_adsb)", slot, [])
  | some cmd =>
    match env.popen cmd with
    | .exc m => (jerr m, slot, [])
    | .ok p => (⟨[("status", .s "started")], 200⟩, some p, [cmd])

/-- `start_adsb`: under `adsb_lock`, refuse when `adsb_process` is set
and `poll()` is None; otherwise proceed (a dead handle is simply
overwritten on success). -/
def start_adsb (env : AdsbEnv) (slot : Option Proc) (gain device : Option String) :
    Resp × Option Proc × List (List String) :=
  match slot with
  | some p =>
    if p.poll = none then (jerr "ADS-B already running", some p, [])
    else adsb_body env slot gain device
  | none => adsb_body env slot gain device

/-- Environment of `start_iridium`. -/
structure IridiumEnv where
  which : String → Bool
  popen : List String → PopenTF

/-- `{status:"error", message: msg}` with an explicit HTTP status. -/
def jerrC (msg : String) (code : Nat) : Resp :=
  ⟨[("status", .s "error"), ("message", .s msg)], code⟩

/-- The non-busy body of `start_iridium` (`POST /iridium/start`,
`src/routes/iridium.py`).  The three validators live in
`utils/validation.py` (not under `src/`), so their outcomes are
abstract parameters: `.ok` carries the validated value as the string
interpolated into the command (for `freq`, `str(float(freq))`), `.error`
carries the `ValueError` message; `sampleRateOk` is the
`float(sample_rate.replace('e','E'))` acceptance test.  Error paths
leave the prior slot value in place. -/
def iridium_body (env : IridiumEnv) (slot : Option Proc)
    (vfreq vgain vdev : Except String String) (sampleRate : Option String)
    (sampleRateOk : Bool) : Resp × Option Proc × List (List String) :=
  match vfreq with
  | .error e => (jerrC e 400, slot, [])
  | .ok f =>
    match vgain with
    | .error e => (jerrC e 400, slot, [])
    | .ok g =>
      match vdev with
      | .error e => (jerrC e 400, slot, [])
      | .ok d =>
        let sr := sampleRate.getD "2.048e6"
        if !sampleRateOk then (jerrC "Invalid sample rate format" 400, slot, [])
        else if !(env.which "iridium-extractor" || env.which "rtl_fm") then
          (jerrC "Iridium tools not found. Requires rtl_fm or iridium-extractor." 503,
           slot, [])
        else
          let cmd := ["rtl_fm", "-f", f ++ "M", "-g", g, "-s", sr, "-d", d, "-"]
          match env.popen cmd with
          | .fnf fn => (jerrC ("Tool not found: " ++ fn) 503, slot, [])
          | .exc m => (jerrC m 500, slot, [])
          | .ok p =>
            (⟨[("status", .s "started"), ("demo_mode", .b true),
               ("message", .s "Demo mode active - data is simulated")], 200⟩,
             some p, [cmd])

/-- `start_iridium`: under `satellite_lock`, refuse with **HTTP 409**
when `satellite_process` is set and `poll()` is None — the only start
handler that passes an explicit status code. -/
def start_iridium (env : IridiumEnv) (slot : Option Proc)
    (vfreq vgain vdev : Except String String) (sampleRate : Option String)
    (sampleRateOk : Bool) : Resp × Option Proc × List (List String) :=
  match slot with
  | some p =>
    if p.poll = none then
      (jerrC "Iridium capture already running" 409, some p, [])
    else iridium_body env slot vfreq vgain vdev sampleRate sampleRateOk
  | none => iridium_body env slot vfreq vgain vdev sampleRate sampleRateOk

/-! ### Stop handlers

Each stop handler terminates the slot's processes (terminate, wait with
timeout, escalate to kill — pure OS effects) and clears the slot; the
embedded functions record the response and the successor slot. -/

/-- `stop_decoding` (`POST /stop`): `stopped` when `current_process` was
set (after killing rtl_fm, closing the PTY and killing multimon-ng),
`not_running` otherwise. -/
def stop_decoding (slot : Option PagerSlot) : Resp × Option PagerSlot :=
  match slot with
  | some _ => (jstatus "stopped", none)
  | none => (jstatus "not_running", none)

/-- `stop_sensor` (`POST /stop_sensor`). -/
def stop_sensor (slot : Option Proc) : Resp × Option Proc :=
  match slot with
  | some _ => (jstatus "stopped", none)
  | none => (jstatus "not_running", none)

/-- `stop_wifi_scan` (`POST /wifi/scan/stop`). -/
def stop_wifi_scan (slot : Option Proc) : Resp × Option Proc :=
  match slot with
  | some _ => (jstatus "stopped", none)
  | none => (jstatus "not_running", none)

/-- `stop_bt_scan` (`POST /bt/scan/stop`). -/
def stop_bt_scan (slot : Option Proc) : Resp × Option Proc :=
  match slot with
  | some _ => (jstatus "stopped", none)
  | none => (jstatus "not_running", none)

/-- `stop_adsb` (`POST /adsb/stop`, src/intercept.py): terminates the
process when one is set, clears `adsb_aircraft`, and returns
`{status:"stopped"}` **unconditionally** — also when nothing was
running. -/
def stop_adsb (slot : Option Proc) : Resp × Option Proc :=
  match slot with
  | some _ => (jstatus "stopped", none)
  | none => (jstatus "stopped", none)

/-- `stop_iridium` (`POST /iridium/stop`, `src/routes/iridium.py`):
returns `{status:"stopped"}` unconditionally. -/
def stop_iridium (slot : Option Proc) : Resp × Option Proc :=
  match slot with
  | some _ => (jstatus "stopped", none)
  | none => (jstatus "stopped", none)

/-- `stop_pmkid` (`POST /wifi/pmkid/stop`, `src/routes/wifi.py`):
returns `{status:"stopped"}` unconditionally. -/
def stop_pmkid (slot : Option Proc) : Resp × Option Proc :=
  match slot with
  | some _ => (jstatus "stopped", none)
  | none => (jstatus "stopped", none)

/-! ## Theorems for C1 and C4 -/

/-- C1 counterexample: a second `POST /adsb/start` while ADS-B is
running returns `{status:"error", message:"ADS-B already running"}`
and spawns nothing — but with HTTP status 200 (Flask's default; the
handler passes no status code), not 409 as the claim states. -/
theorem C1_adsb_conflict_counterexample :
    start_adsb ⟨fun _ => none, fun _ => .exc ""⟩ (some ⟨none, "", ""⟩) none none
      = (jerr "ADS-B already running", some ⟨none, "", ""⟩, []) ∧
    (jerr "ADS-B already running").code = 200 ∧
    (jerr "ADS-B already running").code ≠ 409 := by
  exact ⟨rfl, rfl, by decide⟩

/-- C1 (amended): for every mode, a start request received while that
mode's pipeline is already running returns an already-running error
(for ADS-B, message `"ADS-B already running"`) and does not spawn a
second process — but the HTTP status is Flask's default 200 for the
pager, sensor, WiFi-scan, Bluetooth and ADS-B handlers; only the
Iridium route passes an explicit 409. -/
theorem C1_start_conflict_no_spawn
    (envP : PagerEnv) (envS : SensorEnv) (envW : WifiScanEnv) (envB : BtEnv)
    (envA : AdsbEnv) (envI : IridiumEnv)
    (ps : PagerSlot) (sp wp bp ap ip : Proc)
    (f g sq pp dv : Option String) (pr : Option (List String))
    (mon itf ch bd md bi : Option String) (ble : Option Bool)
    (vf vg vd : Except String String) (sr : Option String) (srOk : Bool)
    (hbt : bp.poll = none) (hadsb : ap.poll = none) (hir : ip.poll = none) :
    start_decoding envP (some ps) f g sq pp dv pr
      = (jerr "Already running", some ps, []) ∧
    start_sensor envS (some sp) f g pp dv
      = (jerr "Sensor already running", some sp, []) ∧
    start_wifi_scan envW (some wp) mon itf ch bd
      = (jerr "Scan already running", some wp, []) ∧
    start_bt_scan envB (some bp) md bi ble
      = (jerr "Scan already running", some bp, []) ∧
    start_adsb envA (some ap) g dv
      = (jerr "ADS-B already running", some ap, []) ∧
    start_iridium envI (some ip) vf vg vd sr srOk
      = (jerrC "Iridium capture already running" 409, some ip, []) ∧
    (jerr "Already running").code = 200 ∧
    (jerr "ADS-B already running").code = 200 := by
  refine ⟨rfl, rfl, rfl, ?_, ?_, ?_, rfl, rfl⟩
  · simp [start_bt_scan, hbt]
  · simp [start_adsb, hadsb]
  · simp [start_iridium, hir]

/-- Witness for `C1_start_conflict_no_spawn` at concrete busy slots. -/
theorem C1_start_conflict_no_spawn_witness :
    start_adsb ⟨fun _ => some "/usr/bin/dump1090", fun _ => .exc ""⟩
        (some ⟨none, "", ""⟩) (some "40") (some "0")
      = (jerr "ADS-B already running", some ⟨none, "", ""⟩, []) ∧
    start_iridium ⟨fun _ => true, fun _ => .exc ""⟩ (some ⟨none, "", ""⟩)
        (.ok "1626.0") (.ok "40") (.ok "0") none true
      = (jerrC "Iridium capture already running" 409, some ⟨none, "", ""⟩, []) :=
  ⟨(C1_start_conflict_no_spawn ⟨fun _ => .exc "", 3⟩ ⟨fun _ => .exc ""⟩
      ⟨fun _ => .exc ""⟩ ⟨fun _ => .exc "", 3, true⟩
      ⟨fun _ => some "/usr/bin/dump1090", fun _ => .exc ""⟩ ⟨fun _ => true, fun _ => .exc ""⟩
      ⟨⟨none, "", ""⟩, ⟨none, "", ""⟩, 3⟩ ⟨none, "", ""⟩ ⟨none, "", ""⟩
      ⟨none, "", ""⟩ ⟨none, "", ""⟩ ⟨none, "", ""⟩
      (some "40") (some "40") none none (some "0") none
      none none none none none none none
      (.ok "1626.0") (.ok "40") (.ok "0") none true
      rfl rfl rfl).2.2.2.2.1,
   (C1_start_conflict_no_spawn ⟨fun _ => .exc "", 3⟩ ⟨fun _ => .exc ""⟩
      ⟨fun _ => .exc ""⟩ ⟨fun _ => .exc "", 3, true⟩
      ⟨fun _ => some "/usr/bin/dump1090", fun _ => .exc ""⟩ ⟨fun _ => true, fun _ => .exc ""⟩
      ⟨⟨none, "", ""⟩, ⟨none, "", ""⟩, 3⟩ ⟨none, "", ""⟩ ⟨none, "", ""⟩
      ⟨none, "", ""⟩ ⟨none, "", ""⟩ ⟨none, "", ""⟩
      (some "40") (some "40") none none (some "0") none
      none none none none none none none
      (.ok "1626.0") (.ok "40") (.ok "0") none true
      rfl rfl rfl).2.2.2.2.2.1⟩

/-- C4 counterexample: `POST /adsb/stop` with no pipeline running still
returns `{status:"stopped"}` — the handler reports `stopped` although
it had nothing to stop, contradicting the claimed
`stopped | not_running` contract. -/
theorem C4_stop_adsb_counterexample :
    (stop_adsb none).1 = jstatus "stopped" ∧
    jstatus "stopped" ≠ jstatus "not_running" := by
  exact ⟨rfl, by decide⟩

/-- C4 (amended): the pager, sensor, WiFi-scan and Bluetooth stop
handlers return `stopped` exactly when a pipeline was running and
`not_running` otherwise; the ADS-B, Iridium and PMKID stop handlers
return `stopped` unconditionally — also when nothing was running. -/
theorem C4_stop_status_per_mode (ps : PagerSlot) (p : Proc) :
    (stop_decoding (some ps)).1 = jstatus "stopped" ∧
    (stop_decoding none).1 = jstatus "not_running" ∧
    (stop_sensor (some p)).1 = jstatus "stopped" ∧
    (stop_sensor none).1 = jstatus "not_running" ∧
    (stop_wifi_scan (some p)).1 = jstatus "stopped" ∧
    (stop_wifi_scan none).1 = jstatus "not_running" ∧
    (stop_bt_scan (some p)).1 = jstatus "stopped" ∧
    (stop_bt_scan none).1 = jstatus "not_running" ∧
    (∀ sl : Option Proc, (stop_adsb sl).1 = jstatus "stopped") ∧
    (∀ sl : Option Proc, (stop_iridium sl).1 = jstatus "stopped") ∧
    (∀ sl : Option Proc, (stop_pmkid sl).1 = jstatus "stopped") := by
  refine ⟨rfl, rfl, rfl, rfl, rfl, rfl, rfl, rfl, ?_, ?_, ?_⟩
  · intro sl
    cases sl with
    | none => rfl
    | some q => rfl
  · intro sl
    cases sl with
    | none => rfl
    | some q => rfl
  · intro sl
    cases sl with
    | none => rfl
    | some q => rfl

/-! ## Satellite pass prediction (`predict_passes`, `src/routes/satellite.py`, C7)

The skyfield library is an external collaborator; its observables are
an oracle: per satellite, whether `EarthSatellite` construction
succeeds, the `find_discrete` rise/set arrays over `[t0, t0+hours]`,
and the topocentric altitude/azimuth and sub-point samplers.  Times are
embedded as rational seconds; `strftime` of a time is an oracle
function (the sortedness claim is about the produced string key,
whatever the formatting). -/

/-- An element of the request's `satellites` list: a NORAD number or a
name string. -/
inductive SatIn where
  | num : Int → SatIn
  | str : String → SatIn

/-- `dget` for `Int`-keyed dicts. -/
def dgetI : List (Int × α) → Int → Option α
  | [], _ => none
  | (a, v) :: t, k => if a = k then some v else dgetI t k

/-- `norad_to_name` from `predict_passes`. -/
def norad_to_name : List (Int × String) :=
  [(25544, "ISS"), (25338, "NOAA-15"), (28654, "NOAA-18"), (33591, "NOAA-19"),
   (43013, "NOAA-20"), (40069, "METEOR-M2"), (57166, "METEOR-M2-3")]

/-- `name_to_norad = {v: k for k, v in norad_to_name.items()}`. -/
def name_to_norad : List (String × Int) :=
  norad_to_name.map (fun kv => (kv.2, kv.1))

/-- `colors` from `predict_passes`. -/
def satColors : List (String × String) :=
  [("ISS", "#00ffff"), ("NOAA-15", "#00ff00"), ("NOAA-18", "#ff6600"),
   ("NOAA-19", "#ff3366"), ("NOAA-20", "#00ffaa"), ("METEOR-M2", "#9370DB"),
   ("METEOR-M2-3", "#ff00ff")]

/-- The skyfield observables used by `predict_passes`, per satellite
name, for the fixed observer and search window of one request. -/
structure SkyOracle where
  tle_ok : String → String → String → Bool
  findEvents : String → Option (List ℚ × List Bool)
  altaz : String → ℚ → ℚ × ℚ
  subpoint : String → ℚ → ℚ × ℚ
  now : ℚ
  fmtTime : ℚ → String
  fmtISO : ℚ → String

/-- One pass record as appended to `passes`. -/
structure Pass where
  satellite : String
  norad : Int
  startTime : String
  startTimeISO : String
  maxEl : ℚ
  duration : Int
  trajectory : List (ℚ × ℚ)
  groundTrack : List (ℚ × ℚ)
  currentPos : ℚ × ℚ
  color : String
deriving DecidableEq, Repr

/-- Python `round(q, 1)` on our rational embedding: round `10*q` to the
nearest integer, ties to even, divide by 10. -/
def roundHalfEven (q : ℚ) : ℤ :=
  if q - ⌊q⌋ < 1/2 then ⌊q⌋
  else if 1/2 < q - ⌊q⌋ then ⌊q⌋ + 1
  else if ⌊q⌋ % 2 = 0 then ⌊q⌋ else ⌊q⌋ + 1

/-- `float(round(x, 1))`. -/
def pyRound1 (q : ℚ) : ℚ := (roundHalfEven (10 * q) : ℚ) / 10

/-- Python `int(q)`: truncation toward zero. -/
def pyInt (q : ℚ) : Int := if 0 ≤ q then ⌊q⌋ else ⌈q⌉

/-- The 30-point trajectory loop: `frac = k/29`,
`t = rise + duration*frac`, entry `{el: max(0, el), az}`. -/
def sampleTraj (o : SkyOracle) (sat : String) (rise duration : ℚ) :
    List (ℚ × ℚ) :=
  (List.range 30).map (fun (k : Nat) =>
    let ea := o.altaz sat (rise + duration * (k : ℚ) / 29)
    (max 0 ea.1, ea.2))

/-- `max_elevation`: starts at 0, raised by every sampled `el` that
exceeds it — the maximum of 0 and the 30 sampled elevations. -/
def maxElev (o : SkyOracle) (sat : String) (rise duration : ℚ) : ℚ :=
  (List.range 30).foldl (fun (m : ℚ) (k : Nat) =>
    let el := (o.altaz sat (rise + duration * (k : ℚ) / 29)).1
    if el > m then el else m) 0

/-- The 60-point ground track (`frac = k/59`). -/
def sampleTrack (o : SkyOracle) (sat : String) (rise duration : ℚ) :
    List (ℚ × ℚ) :=
  (List.range 60).map (fun (k : Nat) => o.subpoint sat (rise + duration * (k : ℚ) / 59))

/-- Build the pass record for one rise/set pair; `none` when
`max_elevation < min_el` (the pass is filtered on the **unrounded**
maximum, but the reported `maxEl` is `round(max_elevation, 1)`). -/
def mkPass (o : SkyOracle) (sat : String) (min_el rise setT : ℚ) : Option Pass :=
  if maxElev o sat rise (setT - rise) ≥ min_el then
    some { satellite := sat,
           norad := (dget name_to_norad sat).getD 0,
           startTime := o.fmtTime rise,
           startTimeISO := o.fmtISO rise,
           maxEl := pyRound1 (maxElev o sat rise (setT - rise)),
           duration := pyInt ((setT - rise) / 60),
           trajectory := sampleTraj o sat rise (setT - rise),
           groundTrack := sampleTrack o sat rise (setT - rise),
           currentPos := o.subpoint sat o.now,
           color := (dget satColors sat).getD "#00ff00" }
  else none

/-- `for j in range(i+1, len(times)): if not events[j]` — the first
release index after `i` (Python would raise on `events[j]` out of
range; `find_discrete` returns arrays of equal length, so the `getD`
default is unreachable). -/
def findRelease (events : List Bool) (len i : Nat) : Option Nat :=
  (List.range' (i + 1) (len - (i + 1))).find? (fun j => !(events.getD j true))

/-- The `while i < len(times)` rise/set pairing loop.  `fuel` is a
structural bound on the remaining iterations: every iteration advances
`i` by at least one, so `times.length - i ≤ fuel` holds throughout when
called with `fuel = times.length`, and the `fuel = 0` case is reached
only with `i ≥ times.length`, where the loop exits anyway. -/
def pairLoop (o : SkyOracle) (sat : String) (min_el : ℚ)
    (times : List ℚ) (events : List Bool) : Nat → Nat → List Pass
  | 0, _ => []
  | fuel + 1, i =>
    if i < times.length then
      if decide (i < events.length) && events.getD i false then
        match findRelease events times.length i with
        | some j =>
          match mkPass o sat min_el (times.getD i 0) (times.getD j 0) with
          | some pass => pass :: pairLoop o sat min_el times events fuel (j + 1)
          | none => pairLoop o sat min_el times events fuel (j + 1)
        | none => pairLoop o sat min_el times events fuel (i + 1)
      else pairLoop o sat min_el times events fuel (i + 1)
    else []

/-- The passes contributed by one entry of the resolved satellite
list: skipped (`continue`) when the name is not a cache key, when
`EarthSatellite` raises, or when `find_discrete` raises; otherwise the
pairing loop from index 0. -/
def satPasses (o : SkyOracle)
    (tle_cache : List (String × (String × String × String)))
    (min_el : ℚ) (sname? : Option String) : List Pass :=
  match sname? with
  | none => []
  | some sat =>
    match dget tle_cache sat with
    | none => []
    | some tle =>
      if !(o.tle_ok tle.2.1 tle.2.2 tle.1) then []
      else
        match o.findEvents sat with
        | none => []
        | some te => pairLoop o sat min_el te.1 te.2 te.1.length 0

/-- Lexicographic order on code points — Python's `str` comparison,
used by `passes.sort(key=lambda p: p['startTime'])`. -/
def charListLe : List Char → List Char → Bool
  | [], _ => true
  | _ :: _, [] => false
  | a :: as, b :: bs =>
    if a.toNat < b.toNat then true
    else if b.toNat < a.toNat then false
    else charListLe as bs

/-- `a <= b` on Python strings. -/
def strLe (a b : String) : Bool := charListLe a.data b.data

/-- The sort key comparison of `passes.sort(key=lambda p: p['startTime'])`. -/
def passLe (a b : Pass) : Bool := strLe a.startTime b.startTime

/-- `predict_passes` (`src/routes/satellite.py`), after input
validation: resolve NORAD numbers to names (an unknown number stays a
non-string and can never match a cache key — embedded as `none`),
accumulate each satellite's passes in order, then sort by the
`startTime` string.  The validated `min_el` is the request's `minEl`. -/
def predict_passes (o : SkyOracle)
    (tle_cache : List (String × (String × String × String)))
    (sat_input : List SatIn) (min_el : ℚ) : List Pass :=
  let satellites : List (Option String) := sat_input.map (fun s =>
    match s with
    | .num n =>
      match dgetI norad_to_name n with
      | some nm => some nm
      | none => none
    | .str s => some s)
  (satellites.foldl (fun acc s => acc ++ satPasses o tle_cache min_el s) []).mergeSort
    passLe

/-- Modelled from the spec: `validate_elevation` lives in
`utils/validation.py`, which is not under `src/`; the spec says
"Hours, min-elevation: bounded positive ranges" — embedded as the
elevation range `[0, 90]` degrees with a `ValueError` otherwise. -/
def validate_elevation (q : ℚ) : Except String ℚ :=
  if 0 ≤ q ∧ q ≤ 90 then .ok q else .error "Invalid minimum elevation"

/-! ### Rounding and ordering lemmas for C7 -/

theorem roundHalfEven_ge_floor (q : ℚ) : ⌊q⌋ ≤ roundHalfEven q := by
  unfold roundHalfEven
  repeat split
  all_goals omega

theorem roundHalfEven_ge_sub_half (q : ℚ) : q - 1/2 ≤ (roundHalfEven q : ℚ) := by
  have hf : (⌊q⌋ : ℚ) ≤ q := Int.floor_le q
  have hf2 : q < ⌊q⌋ + 1 := Int.lt_floor_add_one q
  unfold roundHalfEven
  split
  · linarith
  · split
    · push_cast
      linarith
    · split
      · linarith
      · push_cast
        linarith

theorem int_le_roundHalfEven {n : ℤ} {q : ℚ} (h : (n : ℚ) ≤ q) :
    n ≤ roundHalfEven q :=
  le_trans (Int.le_floor.mpr h) (roundHalfEven_ge_floor q)

theorem pyRound1_ge_sub (x : ℚ) : x - 1/20 ≤ pyRound1 x := by
  have h := roundHalfEven_ge_sub_half (10 * x)
  unfold pyRound1
  linarith

theorem pyRound1_ge_of_div10 {k : ℤ} {x : ℚ} (h : (k : ℚ) / 10 ≤ x) :
    (k : ℚ) / 10 ≤ pyRound1 x := by
  have h10 : (k : ℚ) ≤ 10 * x := by linarith
  have h2 : k ≤ roundHalfEven (10 * x) := int_le_roundHalfEven h10
  have h3 : (k : ℚ) ≤ (roundHalfEven (10 * x) : ℚ) := by exact_mod_cast h2
  unfold pyRound1
  linarith

theorem charListLe_total (a : List Char) : ∀ b : List Char,
    charListLe a b = true ∨ charListLe b a = true := by
  induction a with
  | nil =>
    intro b
    exact Or.inl rfl
  | cons x xs ih =>
    intro b
    cases b with
    | nil => exact Or.inr rfl
    | cons y ys =>
      rcases Nat.lt_trichotomy x.toNat y.toNat with h | h | h
      · left
        simp [charListLe, h]
      · rcases ih ys with h2 | h2
        · left
          simp [charListLe, h, h2]
        · right
          simp [charListLe, h.symm, h2]
      · right
        simp [charListLe, h]

theorem charListLe_trans (a : List Char) : ∀ b c : List Char,
    charListLe a b = true → charListLe b c = true → charListLe a c = true := by
  induction a with
  | nil =>
    intro b c _ _
    rfl
  | cons x xs ih =>
    intro b c hab hbc
    cases b with
    | nil => simp [charListLe] at hab
    | cons y ys =>
      cases c with
      | nil => simp [charListLe] at hbc
      | cons z zs =>
        simp only [charListLe] at hab hbc ⊢
        rcases Nat.lt_trichotomy x.toNat y.toNat with hxy | hxy | hxy
        · rcases Nat.lt_trichotomy y.toNat z.toNat with hyz | hyz | hyz
          · simp [Nat.lt_trans hxy hyz]
          · have : x.toNat < z.toNat := by omega
            simp [this]
          · rw [if_neg (by omega), if_pos hyz] at hbc
            simp at hbc
        · rcases Nat.lt_trichotomy y.toNat z.toNat with hyz | hyz | hyz
          · have : x.toNat < z.toNat := by omega
            simp [this]
          · have hxz : x.toNat = z.toNat := by omega
            rw [if_neg (by omega), if_neg (by omega)] at hab hbc
            rw [if_neg (by omega), if_neg (by omega)]
            exact ih ys zs hab hbc
          · rw [if_neg (by omega), if_pos hyz] at hbc
            simp at hbc
        · rw [if_neg (by omega), if_pos hxy] at hab
          simp at hab

theorem passLe_trans (a b c : Pass) (h1 : passLe a b = true)
    (h2 : passLe b c = true) : passLe a c = true :=
  charListLe_trans _ _ _ h1 h2

theorem passLe_total (a b : Pass) : (passLe a b || passLe b a) = true := by
  rcases charListLe_total a.startTime.data b.startTime.data with h | h
  · simp [passLe, strLe, h]
  · simp [passLe, strLe, h]

theorem mkPass_spec {o : SkyOracle} {sat : String} {min_el rise setT : ℚ}
    {p : Pass} (h : mkPass o sat min_el rise setT = some p) :
    p.trajectory.length = 30 ∧
    min_el ≤ maxElev o sat rise (setT - rise) ∧
    p.maxEl = pyRound1 (maxElev o sat rise (setT - rise)) := by
  unfold mkPass at h
  split at h
  · rename_i hge
    rw [Option.some.injEq] at h
    subst h
    refine ⟨?_, hge, rfl⟩
    show (sampleTraj o sat rise (setT - rise)).length = 30
    unfold sampleTraj
    rw [List.length_map, List.length_range]
  · exact absurd h (by simp)

theorem pairLoop_succ_eq (o : SkyOracle) (sat : String) (min_el : ℚ)
    (times : List ℚ) (events : List Bool) (n i : Nat) :
    pairLoop o sat min_el times events (n + 1) i =
      if i < times.length then
        if decide (i < events.length) && events.getD i false then
          match findRelease events times.length i with
          | some j =>
            match mkPass o sat min_el (times.getD i 0) (times.getD j 0) with
            | some pass => pass :: pairLoop o sat min_el times events n (j + 1)
            | none => pairLoop o sat min_el times events n (j + 1)
          | none => pairLoop o sat min_el times events n (i + 1)
        else pairLoop o sat min_el times events n (i + 1)
      else [] := rfl

theorem mem_pairLoop {o : SkyOracle} {sat : String} {min_el : ℚ}
    {times : List ℚ} {events : List Bool} :
    ∀ {fuel i : Nat} {p : Pass},
      p ∈ pairLoop o sat min_el times events fuel i →
      ∃ r s, mkPass o sat min_el r s = some p := by
  intro fuel
  induction fuel with
  | zero =>
    intro i p hp
    rw [show pairLoop o sat min_el times events 0 i = ([] : List Pass) from rfl] at hp
    cases hp
  | succ n ih =>
    intro i p hp
    rw [pairLoop_succ_eq] at hp
    split at hp
    · split at hp
      · split at hp
        · split at hp
          · rename_i hmk
            rcases List.mem_cons.mp hp with h | h
            · subst h
              exact ⟨_, _, hmk⟩
            · exact ih h
          · exact ih hp
        · exact ih hp
      · exact ih hp
    · simp at hp

theorem mem_satPasses {o : SkyOracle}
    {cache : List (String × (String × String × String))} {min_el : ℚ}
    {s : Option String} {p : Pass} (hp : p ∈ satPasses o cache min_el s) :
    ∃ sat r st, mkPass o sat min_el r st = some p := by
  unfold satPasses at hp
  split at hp
  · simp at hp
  · rename_i sat
    split at hp
    · simp at hp
    · split at hp
      · simp at hp
      · split at hp
        · simp at hp
        · obtain ⟨r, st, hmk⟩ := mem_pairLoop hp
          exact ⟨sat, r, st, hmk⟩

theorem mem_foldl_append {α β : Type _} (g : β → List α) :
    ∀ (l : List β) (acc : List α) (p : α),
      p ∈ l.foldl (fun a x => a ++ g x) acc → p ∈ acc ∨ ∃ x ∈ l, p ∈ g x := by
  intro l
  induction l with
  | nil =>
    intro acc p hp
    exact Or.inl hp
  | cons x xs ih =>
    intro acc p hp
    simp only [List.foldl_cons] at hp
    rcases ih (acc ++ g x) p hp with h | ⟨y, hy, hpg⟩
    · rcases List.mem_append.mp h with h | h
      · exact Or.inl h
      · exact Or.inr ⟨x, List.mem_cons_self x xs, h⟩
    · exact Or.inr ⟨y, List.mem_cons_of_mem x hy, hpg⟩

/-- C7 (amended): for every predict request, the returned pass list is
sorted ascending by the `startTime` string, and every pass carries a
trajectory of exactly 30 points; every pass is filtered on the
**unrounded** maximum sampled elevation `≥ minEl`, so the reported
(1-decimal-rounded) `maxEl` satisfies `maxEl ≥ minEl − 0.05`, and
`maxEl ≥ minEl` whenever `minEl` is a multiple of 0.1 (as in the
spec's integer example) — but not for arbitrary fractional `minEl`. -/
theorem C7_predict_sorted_and_bounds (o : SkyOracle)
    (cache : List (String × (String × String × String)))
    (sat_input : List SatIn) (min_el : ℚ) :
    List.Pairwise (fun a b => passLe a b = true)
      (predict_passes o cache sat_input min_el) ∧
    ∀ p ∈ predict_passes o cache sat_input min_el,
      p.trajectory.length = 30 ∧
      min_el - 1/20 ≤ p.maxEl ∧
      ∀ k : ℤ, min_el = (k : ℚ) / 10 → min_el ≤ p.maxEl := by
  constructor
  · unfold predict_passes
    exact List.sorted_mergeSort passLe_trans passLe_total _
  · intro p hp
    unfold predict_passes at hp
    rw [List.mem_mergeSort] at hp
    rcases mem_foldl_append _ _ _ _ hp with h | ⟨s, _, hpg⟩
    · simp at h
    · obtain ⟨sat, r, st, hmk⟩ := mem_satPasses hpg
      obtain ⟨hlen, hmin, hmax⟩ := mkPass_spec hmk
      refine ⟨hlen, ?_, ?_⟩
      · rw [hmax]
        have h1 := pyRound1_ge_sub (maxElev o sat r (st - r))
        linarith
      · intro k hk
        rw [hmax, hk]
        apply pyRound1_ge_of_div10
        rw [← hk]
        exact hmin

/-- The oracle of the concrete one-satellite scenario: one rise/set
pair `(0 s, 1740 s)`, constant elevation 10.04° (= 251/25). -/
def c7Oracle : SkyOracle :=
  ⟨fun _ _ _ => true,
   fun _ => some ([0, 1740], [true, false]),
   fun _ _ => (251/25, 0),
   fun _ _ => (0, 0),
   0,
   fun _ => "2025-01-01 00:00 UTC",
   fun _ => "2025-01-01T00:00:00"⟩

/-- A one-entry TLE cache holding the ISS. -/
def c7Cache : List (String × (String × String × String)) :=
  [("ISS", ("ISS (ZARYA)", "1 25544U", "2 25544"))]

/-- The pass the scenario produces: `maxEl = round(10.04, 1) = 10.0`. -/
def c7Pass : Pass :=
  ⟨"ISS", 25544, "2025-01-01 00:00 UTC", "2025-01-01T00:00:00", 10, 29,
   (List.range 30).map (fun _ => (251/25, 0)),
   (List.range 60).map (fun _ => ((0 : ℚ), (0 : ℚ))), (0, 0), "#00ffff"⟩

theorem foldl_keep (c : ℚ) (l : List ℕ) :
    l.foldl (fun (m : ℚ) (_ : ℕ) => if c > m then c else m) c = c := by
  induction l with
  | nil => rfl
  | cons x xs ih =>
    rw [List.foldl_cons, if_neg (lt_irrefl c)]
    exact ih

theorem c7_maxElev : maxElev c7Oracle "ISS" 0 (1740 - 0) = 251/25 := by
  show (List.range 30).foldl
    (fun (m : ℚ) (_ : ℕ) => if (251/25 : ℚ) > m then 251/25 else m) 0 = 251/25
  rw [List.range_eq_range']
  rw [show List.range' 0 30 = 0 :: List.range' 1 29 from rfl]
  rw [List.foldl_cons, if_pos (by norm_num : (251/25 : ℚ) > 0)]
  exact foldl_keep _ _

theorem c7_mkPass (min_el : ℚ) (h : min_el ≤ 251/25) :
    mkPass c7Oracle "ISS" min_el 0 1740 = some c7Pass := by
  unfold mkPass
  rw [c7_maxElev, if_pos (by exact h : (251/25 : ℚ) ≥ min_el)]
  unfold c7Pass
  rw [Option.some.injEq, Pass.mk.injEq]
  have hfloor : ⌊(502/5 : ℚ)⌋ = 100 := Int.floor_eq_iff.mpr (by norm_num)
  have hmaxel : pyRound1 (251/25) = 10 := by
    unfold pyRound1 roundHalfEven
    rw [show (10 : ℚ) * (251/25) = 502/5 by norm_num, hfloor,
      if_pos (by norm_num : (502/5 : ℚ) - (100 : ℤ) < 1/2)]
    norm_num
  have hdur : pyInt (((1740 : ℚ) - 0) / 60) = 29 := by
    unfold pyInt
    rw [show ((1740 : ℚ) - 0) / 60 = 29 by norm_num,
      if_pos (by norm_num : (0 : ℚ) ≤ 29)]
    exact Int.floor_eq_iff.mpr (by norm_num)
  have htraj : sampleTraj c7Oracle "ISS" 0 (1740 - 0)
      = (List.range 30).map (fun _ => ((251/25 : ℚ), (0 : ℚ))) := by
    show (List.range 30).map (fun (_ : ℕ) => (max 0 (251/25 : ℚ), (0 : ℚ)))
      = (List.range 30).map (fun _ => ((251/25 : ℚ), (0 : ℚ)))
    simp only [max_eq_right (by norm_num : (0 : ℚ) ≤ 251/25)]
  exact ⟨rfl, rfl, rfl, rfl, hmaxel, hdur, htraj, rfl, rfl, rfl⟩

theorem c7_pairLoop (min_el : ℚ) (h : min_el ≤ 251/25) :
    pairLoop c7Oracle "ISS" min_el [0, 1740] [true, false] 2 0 = [c7Pass] := by
  rw [pairLoop_succ_eq]
  rw [if_pos (by decide : 0 < ([0, 1740] : List ℚ).length)]
  rw [if_pos (by decide :
    (decide (0 < ([true, false] : List Bool).length) &&
      ([true, false] : List Bool).getD 0 false) = true)]
  simp only [show findRelease [true, false] ([0, 1740] : List ℚ).length 0
    = some 1 from rfl]
  simp only [show ([0, 1740] : List ℚ).getD 0 0 = 0 from rfl,
    show ([0, 1740] : List ℚ).getD 1 0 = 1740 from rfl]
  simp only [c7_mkPass min_el h]
  rw [pairLoop_succ_eq]
  rw [if_neg (by decide : ¬ (2 < ([0, 1740] : List ℚ).length))]

set_option maxRecDepth 40000 in
theorem c7_mem (min_el : ℚ) (h : min_el ≤ 251/25) :
    c7Pass ∈ predict_passes c7Oracle c7Cache [.str "ISS"] min_el := by
  unfold predict_passes
  rw [List.mem_mergeSort]
  show c7Pass ∈ pairLoop c7Oracle "ISS" min_el [0, 1740] [true, false] 2 0
  rw [c7_pairLoop min_el h]
  exact List.mem_singleton_self _

/-- C7 counterexample: a successful predict request with
`minEl = 10.04` (accepted by the spec-modelled elevation validator)
returns a pass whose reported `maxEl` is `round(10.04, 1) = 10.0`,
which is **less** than the requested minimum elevation — the claim
`maxEl ≥ minEl` fails because `maxEl` is rounded to one decimal while
the pass filter uses the unrounded elevation. -/
theorem C7_predict_maxel_counterexample :
    validate_elevation (251/25) = .ok (251/25) ∧
    ∃ p ∈ predict_passes c7Oracle c7Cache [.str "ISS"] (251/25),
      p.maxEl < 251/25 := by
  refine ⟨?_, c7Pass, c7_mem (251/25) (by norm_num), ?_⟩
  · unfold validate_elevation
    rw [if_pos (by norm_num)]
  · show c7Pass.maxEl < 251/25
    have h : c7Pass.maxEl = 10 := rfl
    rw [h]
    norm_num

set_option maxRecDepth 40000 in
/-- Witness for `C7_predict_sorted_and_bounds` at the concrete scenario
with the integer minimum elevation 10 (= 100/10). -/
theorem C7_predict_sorted_and_bounds_witness :
    (10 : ℚ) - 1/20 ≤ c7Pass.maxEl ∧ (10 : ℚ) ≤ c7Pass.maxEl := by
  have hmem : c7Pass ∈ predict_passes c7Oracle c7Cache [.str "ISS"] 10 :=
    c7_mem 10 (by norm_num)
  have h := (C7_predict_sorted_and_bounds c7Oracle c7Cache [.str "ISS"] 10).2
    c7Pass hmem
  exact ⟨h.2.1, h.2.2 100 (by norm_num)⟩

end Intercept
